import Mathlib

/-!
Shallow embedding of the PMS ticket lifecycle engine
(`TicketsController` in the API source; models from `Ticket.cs`,
`TicketHistory.cs`, the `Notification` model and `ImageCompressionService`).

Conventions of the embedding:
* C# `DateTime` values are modelled as `Nat`; all `DateTime.UtcNow` reads
  inside a single request are modelled by one request timestamp `now`.
* Entity Framework's change tracking plus `SaveChangesAsync` is modelled by
  pure state passing over a `Db` record of entity lists; database-generated
  identity columns that no endpoint reads back (history / notification /
  message / attachment `Id`) are omitted, ticket ids come from a counter.
* `[Authorize(Roles = "...")]` attributes are modelled as an explicit role
  check at the top of each action, returning `Forbid` like the framework.
* The SignalR push after a notification row is written is fire-and-forget
  and touches no durable state, so it has no counterpart in the model.
* File bytes, disk writes and image recompression in `SendMessage` are
  external I/O; the model keeps the metadata (name, content type, size)
  that the controller's validation and bookkeeping actually read.
-/

namespace PMS

/-- `TicketType` from `Ticket.cs`. -/
inductive TicketType
  | Bug
  | Feature
deriving DecidableEq

/-- `TicketStatus` from `Ticket.cs` (current version, with `Reopened`). -/
inductive TicketStatus
  | Open
  | InProgress
  | Resolved
  | Reopened
  | Closed
deriving DecidableEq

/-- `TicketPriority` from `Ticket.cs`. -/
inductive TicketPriority
  | Low
  | Medium
  | High
  | Critical
deriving DecidableEq

/-- `UserRole` from the `User` model. -/
inductive UserRole
  | Admin
  | Developer
  | EndUser
deriving DecidableEq

/-- `TicketAction` from `TicketHistory.cs`, plus `SatisfactionRated`,
which the controller's `GetTicketHistory` end-user allow-list and the
front end's history rendering both reference. -/
inductive TicketAction
  | Created
  | Assigned
  | StatusChanged
  | Reassigned
  | PriorityChanged
  | Resolved
  | Closed
  | Reopened
  | Archived
  | Unarchived
  | AttachmentAdded
  | SatisfactionRated
deriving DecidableEq

/-- `NotificationType` from the `Notification` model. -/
inductive NotificationType
  | TicketCreated
  | TicketAssigned
  | TicketResolved
  | TicketReopened
  | TicketClosed
deriving DecidableEq

/-- `Ticket` entity (`Ticket.cs`, current version); navigation properties
omitted, `Type` written `«Type»` because of the Lean keyword. -/
structure Ticket where
  Id : Nat
  Title : String
  Description : Option String
  «Type» : TicketType
  Status : TicketStatus
  Priority : TicketPriority
  CreatedAt : Nat
  UpdatedAt : Nat
  AssignedAt : Option Nat
  InProgressAt : Option Nat
  ResolvedAt : Option Nat
  ReopenedAt : Option Nat
  ClosedAt : Option Nat
  ReopenCount : Nat
  SatisfactionScore : Option Int
  SatisfactionComment : Option String
  RatedAt : Option Nat
  IsArchived : Bool
  ArchivedAt : Option Nat
  ArchivedByUserId : Option Nat
  ProjectId : Nat
  AssignedDeveloperId : Option Nat
  CreatedByUserId : Nat
deriving DecidableEq

/-- `User` entity (fields the controller reads). -/
structure User where
  Id : Nat
  Name : String
  Role : UserRole
  IsActive : Bool
deriving DecidableEq

/-- `Project` entity (fields `CreateTicket` reads). -/
structure Project where
  Id : Nat
  IsActive : Bool
deriving DecidableEq

/-- `TicketHistory` entity (`TicketHistory.cs`), identity column omitted. -/
structure TicketHistory where
  TicketId : Nat
  Action : TicketAction
  OldValue : Option String
  NewValue : Option String
  Comments : Option String
  ChangedByUserId : Nat
  ChangedAt : Nat
deriving DecidableEq

/-- `Notification` entity, identity column omitted. -/
structure Notification where
  UserId : Nat
  «Type» : NotificationType
  Message : String
  RelatedTicketId : Nat
  IsRead : Bool
  CreatedAt : Nat
deriving DecidableEq

/-- `TicketMessage` entity, identity column omitted. -/
structure TicketMessage where
  TicketId : Nat
  SenderId : Nat
  Message : String
  SentAt : Nat
deriving DecidableEq

/-- `TicketAttachment` entity: the metadata `SendMessage` records
(stored-file path and bytes are external I/O). -/
structure TicketAttachment where
  OriginalFileName : String
  ContentType : String
  FileSize : Nat
  UploadedByUserId : Nat
  CreatedAt : Nat
deriving DecidableEq

/-- An uploaded form file as the controller sees it: name, content type,
declared length. -/
structure FileUpload where
  FileName : String
  ContentType : String
  Length : Nat
deriving DecidableEq

/-- The durable store backing `PmsDbContext`. -/
structure Db where
  projects : List Project
  users : List User
  tickets : List Ticket
  histories : List TicketHistory
  notifications : List Notification
  messages : List TicketMessage
  attachments : List TicketAttachment
  nextTicketId : Nat
deriving DecidableEq

/-- Action results distinguished by the controller: `Ok`, `NotFound`,
`Forbid`, `BadRequest` (with its message). -/
inductive ApiResult
  | Ok
  | NotFound (msg : String)
  | Forbid
  | BadRequest (msg : String)
deriving DecidableEq

/-- `TicketStatus.ToString()`. -/
def TicketStatus.toName : TicketStatus → String
  | .Open => "Open"
  | .InProgress => "InProgress"
  | .Resolved => "Resolved"
  | .Reopened => "Reopened"
  | .Closed => "Closed"

/-- Character-wise lowercasing (`ToLower` / case-insensitive compare);
written over `String.data` so it reduces in the kernel. -/
def toLowerStr (s : String) : String :=
  ⟨s.data.map Char.toLower⟩

/-- `String.Trim`: strip leading and trailing whitespace. -/
def trimStr (s : String) : String :=
  ⟨((s.data.dropWhile Char.isWhitespace).reverse.dropWhile Char.isWhitespace).reverse⟩

/-- Case-insensitive `Enum.TryParse<TicketStatus>`. -/
def parseTicketStatus (s : String) : Option TicketStatus :=
  match toLowerStr s with
  | "open" => some .Open
  | "inprogress" => some .InProgress
  | "resolved" => some .Resolved
  | "reopened" => some .Reopened
  | "closed" => some .Closed
  | _ => none

/-- Case-insensitive `Enum.TryParse<TicketType>`. -/
def parseTicketType (s : String) : Option TicketType :=
  match toLowerStr s with
  | "bug" => some .Bug
  | "feature" => some .Feature
  | _ => none

/-- Case-insensitive `Enum.TryParse<TicketPriority>`. -/
def parseTicketPriority (s : String) : Option TicketPriority :=
  match toLowerStr s with
  | "low" => some .Low
  | "medium" => some .Medium
  | "high" => some .High
  | "critical" => some .Critical
  | _ => none

/-- `string.IsNullOrWhiteSpace` on a non-null string: empty or
whitespace-only. -/
def isNullOrWhiteSpace (s : String) : Bool :=
  s.data.all Char.isWhitespace

/-- `_context.Tickets.FindAsync(id)` / `FirstOrDefaultAsync(t => t.Id == id)`. -/
def findTicket (db : Db) (id : Nat) : Option Ticket :=
  db.tickets.find? (fun t => t.Id == id)

/-- `_context.Users.FindAsync(id)`. -/
def findUser (db : Db) (id : Nat) : Option User :=
  db.users.find? (fun u => u.Id == id)

/-- `_context.Projects.FindAsync(id)`. -/
def findProject (db : Db) (id : Nat) : Option Project :=
  db.projects.find? (fun p => p.Id == id)

/-- Persisting the tracked (mutated) ticket entity on `SaveChangesAsync`:
the row with the entity's key is replaced. -/
def setTicket (db : Db) (t : Ticket) : Db :=
  { db with tickets := db.tickets.map (fun u => if u.Id = t.Id then t else u) }

/-- Helper `AddHistory`: builds a `TicketHistory` row and saves it. -/
def AddHistory (db : Db) (ticketId : Nat) (action : TicketAction)
    (oldValue newValue comments : Option String) (userId : Nat) (now : Nat) : Db :=
  { db with
    histories := db.histories ++
      [{ TicketId := ticketId
         Action := action
         OldValue := oldValue
         NewValue := newValue
         Comments := comments
         ChangedByUserId := userId
         ChangedAt := now }] }

/-- Helper `CreateNotification`: one durable row for one recipient
(the SignalR broadcast afterwards is fire-and-forget, not modelled). -/
def CreateNotification (db : Db) (userId : Nat) (ty : NotificationType)
    (message : String) (ticketId : Nat) (now : Nat) : Db :=
  { db with
    notifications := db.notifications ++
      [{ UserId := userId
         «Type» := ty
         Message := message
         RelatedTicketId := ticketId
         IsRead := false
         CreatedAt := now }] }

/-- Helper `CreateNotificationsForUsers`: one row per recipient, saved in
one batch. -/
def CreateNotificationsForUsers (db : Db) (userIds : List Nat)
    (ty : NotificationType) (message : String) (ticketId : Nat) (now : Nat) : Db :=
  { db with
    notifications := db.notifications ++
      userIds.map (fun userId =>
        { UserId := userId
          «Type» := ty
          Message := message
          RelatedTicketId := ticketId
          IsRead := false
          CreatedAt := now }) }

/-- Helper `GetAdminUserIds`: ids of active admin users. -/
def GetAdminUserIds (db : Db) : List Nat :=
  (db.users.filter (fun u => u.Role = UserRole.Admin ∧ u.IsActive)).map User.Id

/-- Helper `ValidateStatusTransition` (returns the C# `(IsValid, Message)`
tuple). -/
def ValidateStatusTransition (current next : TicketStatus) (userRole : UserRole) :
    Bool × String :=
  -- Closed tickets cannot transition to anything
  if current = TicketStatus.Closed then
    (false, "Cannot modify closed tickets")
  -- Admin can do any transition (except from Closed, handled above)
  else if userRole = UserRole.Admin then
    (true, "")
  -- Developer restrictions
  else if userRole = UserRole.Developer then
    -- Developer can: InProgress -> Resolved
    if current = TicketStatus.InProgress ∧ next = TicketStatus.Resolved then
      (true, "")
    -- Developer can: Reopened -> InProgress (start working on reopened ticket)
    else if current = TicketStatus.Reopened ∧ next = TicketStatus.InProgress then
      (true, "")
    else if current = TicketStatus.Open then
      (false, "Developer cannot change Open tickets. Wait for assignment.")
    else if current = TicketStatus.Resolved then
      (false, "Cannot change status of resolved ticket. Client must close or request changes.")
    else
      (false, "Invalid transition from " ++ current.toName ++ " to " ++ next.toName)
  else
    (false, "Unauthorized to change status")

/-- `CreateTicketDto`. -/
structure CreateTicketDto where
  Title : String
  Description : Option String
  «Type» : String
  Priority : String
  ProjectId : Nat
deriving DecidableEq

/-- `AssignTicketDto`. -/
structure AssignTicketDto where
  DeveloperId : Nat
deriving DecidableEq

/-- `UpdateTicketStatusDto`. -/
structure UpdateTicketStatusDto where
  Status : String
  Comments : Option String
deriving DecidableEq

/-- `CloseTicketDto`. -/
structure CloseTicketDto where
  Comments : Option String
  SatisfactionScore : Option Int
  SatisfactionComment : Option String
deriving DecidableEq

/-- `ReopenTicketDto`. -/
structure ReopenTicketDto where
  Comment : String
deriving DecidableEq

/-- Result of `GetTicket`. -/
inductive TicketResult
  | NotFound (msg : String)
  | Forbid
  | Ok (ticket : Ticket)
deriving DecidableEq

/-- Result of `GetTicketHistory`. -/
inductive HistoryResult
  | NotFound (msg : String)
  | Forbid
  | Ok (entries : List TicketHistory)
deriving DecidableEq

/-- `GetTickets`: role-filtered listing, archived excluded unless asked
for, ordered by `CreatedAt` descending. -/
def GetTickets (db : Db) (userId : Nat) (userRole : UserRole)
    (includeArchived : Bool) : List Ticket :=
  -- By default, exclude archived tickets
  let query := if includeArchived then db.tickets
               else db.tickets.filter (fun t => !t.IsArchived)
  -- Role-based filtering
  let query :=
    match userRole with
    | UserRole.Admin => query
    | UserRole.Developer => query.filter (fun t => t.AssignedDeveloperId == some userId)
    | UserRole.EndUser => query.filter (fun t => t.CreatedByUserId == userId)
  List.insertionSort (fun a b => b.CreatedAt ≤ a.CreatedAt) query

/-- `GetTicket`: by id, with the role-based access check. -/
def GetTicket (db : Db) (userId : Nat) (userRole : UserRole) (id : Nat) :
    TicketResult :=
  match findTicket db id with
  | none => TicketResult.NotFound "Ticket not found"
  | some ticket =>
    if userRole = UserRole.Developer ∧ ticket.AssignedDeveloperId ≠ some userId then
      TicketResult.Forbid
    else if userRole = UserRole.EndUser ∧ ticket.CreatedByUserId ≠ userId then
      TicketResult.Forbid
    else
      TicketResult.Ok ticket

/-- `CreateTicket` (`[Authorize(Roles = "EndUser,Admin")]`). -/
def CreateTicket (db : Db) (userId : Nat) (userRole : UserRole)
    (dto : CreateTicketDto) (now : Nat) : ApiResult × Db :=
  if ¬ (userRole = UserRole.EndUser ∨ userRole = UserRole.Admin) then (ApiResult.Forbid, db)
  else match findProject db dto.ProjectId with
  | none => (ApiResult.BadRequest "Project not found or inactive", db)
  | some project =>
    if ¬ project.IsActive then (ApiResult.BadRequest "Project not found or inactive", db)
    else match parseTicketType dto.«Type» with
    | none => (ApiResult.BadRequest "Invalid ticket type. Valid: Bug, Feature", db)
    | some ticketType =>
      match parseTicketPriority dto.Priority with
      | none => (ApiResult.BadRequest "Invalid priority. Valid: Low, Medium, High, Critical", db)
      | some priority =>
        let ticket : Ticket :=
          { Id := db.nextTicketId
            Title := dto.Title
            Description := dto.Description
            «Type» := ticketType
            Status := TicketStatus.Open  -- Always starts Open
            Priority := priority
            CreatedAt := now
            UpdatedAt := now
            AssignedAt := none
            InProgressAt := none
            ResolvedAt := none
            ReopenedAt := none
            ClosedAt := none
            ReopenCount := 0
            SatisfactionScore := none
            SatisfactionComment := none
            RatedAt := none
            IsArchived := false
            ArchivedAt := none
            ArchivedByUserId := none
            ProjectId := dto.ProjectId
            AssignedDeveloperId := none
            CreatedByUserId := userId }
        let db1 := { db with tickets := db.tickets ++ [ticket],
                             nextTicketId := db.nextTicketId + 1 }
        -- Record history
        let db2 := AddHistory db1 ticket.Id TicketAction.Created none (some "Open")
                     (some "Ticket created") userId now
        -- Notify all Admins about new ticket
        let db3 := CreateNotificationsForUsers db2 (GetAdminUserIds db2)
                     NotificationType.TicketCreated
                     ("New ticket created: " ++ ticket.Title) ticket.Id now
        (ApiResult.Ok, db3)

/-- `AssignTicket` (`[Authorize(Roles = "Admin")]`): assigns a developer,
auto-advancing an Open ticket to InProgress. -/
def AssignTicket (db : Db) (userId : Nat) (userRole : UserRole) (id : Nat)
    (dto : AssignTicketDto) (now : Nat) : ApiResult × Db :=
  if userRole ≠ UserRole.Admin then (ApiResult.Forbid, db)
  else match findTicket db id with
  | none => (ApiResult.NotFound "Ticket not found", db)
  | some ticket =>
    if ticket.Status = TicketStatus.Closed then
      (ApiResult.BadRequest "Cannot assign a closed ticket", db)
    else match findUser db dto.DeveloperId with
    | none => (ApiResult.BadRequest "Invalid or inactive developer", db)
    | some developer =>
      if ¬ (developer.Role = UserRole.Developer ∧ developer.IsActive) then
        (ApiResult.BadRequest "Invalid or inactive developer", db)
      else
        let oldDeveloper := ticket.AssignedDeveloperId
        let t1 := { ticket with AssignedDeveloperId := some dto.DeveloperId,
                                AssignedAt := some now, UpdatedAt := now }
        -- If first assignment, move to InProgress
        let t2 := if ticket.Status = TicketStatus.Open then
                    { t1 with Status := TicketStatus.InProgress, InProgressAt := some now }
                  else t1
        let db1 := setTicket db t2
        -- Record history
        let action := match oldDeveloper with
          | none => TicketAction.Assigned
          | some _ => TicketAction.Reassigned
        let db2 := AddHistory db1 ticket.Id action (oldDeveloper.map toString)
                     (some (toString dto.DeveloperId))
                     (some ("Assigned to " ++ developer.Name)) userId now
        -- Notify assigned developer
        let db3 := CreateNotification db2 dto.DeveloperId NotificationType.TicketAssigned
                     ("Ticket assigned to you: " ++ ticket.Title) ticket.Id now
        (ApiResult.Ok, db3)

/-- `UpdateTicketStatus` (`[Authorize(Roles = "Developer,Admin")]`):
status change validated by `ValidateStatusTransition`. -/
def UpdateTicketStatus (db : Db) (userId : Nat) (userRole : UserRole) (id : Nat)
    (dto : UpdateTicketStatusDto) (now : Nat) : ApiResult × Db :=
  if ¬ (userRole = UserRole.Developer ∨ userRole = UserRole.Admin) then (ApiResult.Forbid, db)
  else match findTicket db id with
  | none => (ApiResult.NotFound "Ticket not found", db)
  | some ticket =>
    -- Developers can only update their assigned tickets
    if userRole = UserRole.Developer ∧ ticket.AssignedDeveloperId ≠ some userId then
      (ApiResult.Forbid, db)
    else match parseTicketStatus dto.Status with
    | none => (ApiResult.BadRequest "Invalid status. Valid: Open, InProgress, Resolved, Closed", db)
    | some newStatus =>
      let validationResult := ValidateStatusTransition ticket.Status newStatus userRole
      if ¬ validationResult.1 then (ApiResult.BadRequest validationResult.2, db)
      else
        let oldStatus := ticket.Status
        let t1 := { ticket with Status := newStatus, UpdatedAt := now }
        -- Set lifecycle timestamps (InProgressAt only if not already set)
        let t2 :=
          if newStatus = TicketStatus.InProgress then
            { t1 with InProgressAt := some (t1.InProgressAt.getD now) }
          else if newStatus = TicketStatus.Resolved then { t1 with ResolvedAt := some now }
          else if newStatus = TicketStatus.Closed then { t1 with ClosedAt := some now }
          else t1
        let db1 := setTicket db t2
        let db2 := AddHistory db1 ticket.Id TicketAction.StatusChanged
                     (some oldStatus.toName) (some newStatus.toName) dto.Comments userId now
        -- Notify EndUser when ticket is resolved
        if newStatus = TicketStatus.Resolved then
          (ApiResult.Ok, CreateNotification db2 ticket.CreatedByUserId
            NotificationType.TicketResolved
            ("Your ticket has been resolved: " ++ ticket.Title) ticket.Id now)
        else (ApiResult.Ok, db2)

/-- The ordered list of durably committed database states produced by one
`UpdateTicketStatus` call: the controller awaits one `SaveChangesAsync`
for the ticket row, a second one inside `AddHistory`, and (on a
transition to Resolved) a third one inside `CreateNotification`.
A rejected call commits nothing. -/
def UpdateTicketStatusCommits (db : Db) (userId : Nat) (userRole : UserRole) (id : Nat)
    (dto : UpdateTicketStatusDto) (now : Nat) : List Db :=
  if ¬ (userRole = UserRole.Developer ∨ userRole = UserRole.Admin) then []
  else match findTicket db id with
  | none => []
  | some ticket =>
    if userRole = UserRole.Developer ∧ ticket.AssignedDeveloperId ≠ some userId then []
    else match parseTicketStatus dto.Status with
    | none => []
    | some newStatus =>
      let validationResult := ValidateStatusTransition ticket.Status newStatus userRole
      if ¬ validationResult.1 then []
      else
        let oldStatus := ticket.Status
        let t1 := { ticket with Status := newStatus, UpdatedAt := now }
        let t2 :=
          if newStatus = TicketStatus.InProgress then
            { t1 with InProgressAt := some (t1.InProgressAt.getD now) }
          else if newStatus = TicketStatus.Resolved then { t1 with ResolvedAt := some now }
          else if newStatus = TicketStatus.Closed then { t1 with ClosedAt := some now }
          else t1
        let db1 := setTicket db t2
        let db2 := AddHistory db1 ticket.Id TicketAction.StatusChanged
                     (some oldStatus.toName) (some newStatus.toName) dto.Comments userId now
        if newStatus = TicketStatus.Resolved then
          [db1, db2, CreateNotification db2 ticket.CreatedByUserId
            NotificationType.TicketResolved
            ("Your ticket has been resolved: " ++ ticket.Title) ticket.Id now]
        else [db1, db2]

/-- `ReassignTicket` (`[Authorize(Roles = "Admin")]`). -/
def ReassignTicket (db : Db) (userId : Nat) (userRole : UserRole) (id : Nat)
    (dto : AssignTicketDto) (now : Nat) : ApiResult × Db :=
  if userRole ≠ UserRole.Admin then (ApiResult.Forbid, db)
  else match findTicket db id with
  | none => (ApiResult.NotFound "Ticket not found", db)
  | some ticket =>
    if ticket.Status = TicketStatus.Closed then
      (ApiResult.BadRequest "Cannot reassign a closed ticket", db)
    else match findUser db dto.DeveloperId with
    | none => (ApiResult.BadRequest "Invalid or inactive developer", db)
    | some newDeveloper =>
      if ¬ (newDeveloper.Role = UserRole.Developer ∧ newDeveloper.IsActive) then
        (ApiResult.BadRequest "Invalid or inactive developer", db)
      else
        let oldDeveloperName :=
          ((ticket.AssignedDeveloperId.bind (findUser db)).map User.Name).getD "Unassigned"
        let t1 := { ticket with AssignedDeveloperId := some dto.DeveloperId, UpdatedAt := now }
        let db1 := setTicket db t1
        let db2 := AddHistory db1 ticket.Id TicketAction.Reassigned
                     (some oldDeveloperName) (some newDeveloper.Name)
                     (some "Ticket reassigned") userId now
        (ApiResult.Ok, db2)

/-- `CloseTicket` (`[Authorize(Roles = "Admin,EndUser")]`): closes from any
non-Closed status, with the optional satisfaction rating. -/
def CloseTicket (db : Db) (userId : Nat) (userRole : UserRole) (id : Nat)
    (dto : Option CloseTicketDto) (now : Nat) : ApiResult × Db :=
  if ¬ (userRole = UserRole.Admin ∨ userRole = UserRole.EndUser) then (ApiResult.Forbid, db)
  else match findTicket db id with
  | none => (ApiResult.NotFound "Ticket not found", db)
  | some ticket =>
    -- EndUser can only close their own tickets
    if userRole = UserRole.EndUser ∧ ticket.CreatedByUserId ≠ userId then (ApiResult.Forbid, db)
    else if ticket.Status = TicketStatus.Closed then
      (ApiResult.BadRequest "Ticket is already closed", db)
    else
      let oldStatus := ticket.Status
      let t1 := { ticket with Status := TicketStatus.Closed,
                              ClosedAt := some now, UpdatedAt := now }
      -- the save / history / notification tail shared by both rating branches
      let commit := fun (t : Ticket) =>
        let defaultComment := if userRole = UserRole.Admin then "Ticket closed by admin"
                              else "Ticket accepted and closed by user"
        let db1 := setTicket db t
        let db2 := AddHistory db1 ticket.Id TicketAction.Closed
                     (some oldStatus.toName) (some "Closed")
                     (some ((dto.bind CloseTicketDto.Comments).getD defaultComment)) userId now
        -- Notify ticket owner that ticket is closed
        (ApiResult.Ok, CreateNotification db2 ticket.CreatedByUserId
          NotificationType.TicketClosed
          ("Your ticket has been closed: " ++ ticket.Title) ticket.Id now)
      -- Handle optional satisfaction rating (range failure returns before
      -- anything is saved)
      match dto.bind CloseTicketDto.SatisfactionScore with
      | none => commit t1
      | some score =>
        if score < 1 ∨ score > 5 then
          (ApiResult.BadRequest "Satisfaction score must be between 1 and 5", db)
        else commit { t1 with SatisfactionScore := some score,
                              SatisfactionComment := dto.bind CloseTicketDto.SatisfactionComment,
                              RatedAt := some now }

/-- `ReopenTicket` (`[Authorize(Roles = "EndUser,Admin")]`): reopen a
Resolved ticket with a mandatory non-empty comment. -/
def ReopenTicket (db : Db) (userId : Nat) (userRole : UserRole) (id : Nat)
    (dto : ReopenTicketDto) (now : Nat) : ApiResult × Db :=
  if ¬ (userRole = UserRole.EndUser ∨ userRole = UserRole.Admin) then (ApiResult.Forbid, db)
  else if isNullOrWhiteSpace dto.Comment then
    (ApiResult.BadRequest "Comment is required when reopening a ticket", db)
  else match findTicket db id with
  | none => (ApiResult.NotFound "Ticket not found", db)
  | some ticket =>
    -- Only ticket owner (EndUser) or Admin can reopen
    if userRole = UserRole.EndUser ∧ ticket.CreatedByUserId ≠ userId then (ApiResult.Forbid, db)
    -- Developer cannot reopen their own assigned ticket
    else if ticket.AssignedDeveloperId = some userId ∧ userRole ≠ UserRole.Admin then
      (ApiResult.BadRequest "Developer cannot reopen their own assigned ticket", db)
    -- Ticket must be in Resolved status
    else if ticket.Status ≠ TicketStatus.Resolved then
      (ApiResult.BadRequest "Only resolved tickets can be reopened", db)
    else
      let oldStatus := ticket.Status
      let t1 := { ticket with Status := TicketStatus.Reopened,
                              ReopenedAt := some now,
                              ReopenCount := ticket.ReopenCount + 1,
                              UpdatedAt := now }
      let db1 := setTicket db t1
      let db2 := AddHistory db1 ticket.Id TicketAction.Reopened
                   (some oldStatus.toName) (some "Reopened") (some dto.Comment) userId now
      -- Notify assigned developer about reopen
      let db3 := match ticket.AssignedDeveloperId with
        | some devId => CreateNotification db2 devId NotificationType.TicketReopened
                          ("Ticket reopened: " ++ ticket.Title) ticket.Id now
        | none => db2
      -- Notify all admins about reopen
      let db4 := CreateNotificationsForUsers db3 (GetAdminUserIds db3)
                   NotificationType.TicketReopened
                   ("Ticket reopened by user: " ++ ticket.Title) ticket.Id now
      (ApiResult.Ok, db4)

/-- `ArchiveTicket` (`[Authorize(Roles = "Admin")]`): only closed,
not-yet-archived tickets. -/
def ArchiveTicket (db : Db) (userId : Nat) (userRole : UserRole) (id : Nat)
    (now : Nat) : ApiResult × Db :=
  if userRole ≠ UserRole.Admin then (ApiResult.Forbid, db)
  else match findTicket db id with
  | none => (ApiResult.NotFound "Ticket not found", db)
  | some ticket =>
    if ticket.Status ≠ TicketStatus.Closed then
      (ApiResult.BadRequest "Only closed tickets can be archived", db)
    else if ticket.IsArchived then
      (ApiResult.BadRequest "Ticket is already archived", db)
    else
      let t1 := { ticket with IsArchived := true, ArchivedAt := some now,
                              ArchivedByUserId := some userId, UpdatedAt := now }
      let db1 := setTicket db t1
      (ApiResult.Ok, AddHistory db1 ticket.Id TicketAction.Archived
        (some "Active") (some "Archived") (some "Ticket archived by admin") userId now)

/-- `UnarchiveTicket` (`[Authorize(Roles = "Admin")]`). -/
def UnarchiveTicket (db : Db) (userId : Nat) (userRole : UserRole) (id : Nat)
    (now : Nat) : ApiResult × Db :=
  if userRole ≠ UserRole.Admin then (ApiResult.Forbid, db)
  else match findTicket db id with
  | none => (ApiResult.NotFound "Ticket not found", db)
  | some ticket =>
    if ¬ ticket.IsArchived then (ApiResult.BadRequest "Ticket is not archived", db)
    else
      let t1 := { ticket with IsArchived := false, ArchivedAt := none,
                              ArchivedByUserId := none, UpdatedAt := now }
      let db1 := setTicket db t1
      (ApiResult.Ok, AddHistory db1 ticket.Id TicketAction.Unarchived
        (some "Archived") (some "Active") (some "Ticket unarchived by admin") userId now)

/-- The per-role history allow-lists of `GetTicketHistory`; the Admin list
is `Enum.GetValues<TicketAction>()`. -/
def allowedActions (userRole : UserRole) : List TicketAction :=
  match userRole with
  | UserRole.Admin =>
    [TicketAction.Created, TicketAction.Assigned, TicketAction.StatusChanged,
     TicketAction.Reassigned, TicketAction.PriorityChanged, TicketAction.Resolved,
     TicketAction.Closed, TicketAction.Reopened, TicketAction.Archived,
     TicketAction.Unarchived, TicketAction.AttachmentAdded, TicketAction.SatisfactionRated]
  | UserRole.Developer =>
    [TicketAction.Created, TicketAction.Assigned, TicketAction.Reassigned,
     TicketAction.StatusChanged, TicketAction.Resolved, TicketAction.Closed,
     TicketAction.Reopened, TicketAction.AttachmentAdded]
  | UserRole.EndUser =>
    [TicketAction.Created, TicketAction.Assigned, TicketAction.StatusChanged,
     TicketAction.Resolved, TicketAction.Closed, TicketAction.Reopened,
     TicketAction.SatisfactionRated]

/-- `GetTicketHistory`: access check, per-role action filter, chronological
ascending order (`OrderBy(h => h.ChangedAt)`). -/
def GetTicketHistory (db : Db) (userId : Nat) (userRole : UserRole) (id : Nat) :
    HistoryResult :=
  match findTicket db id with
  | none => HistoryResult.NotFound "Ticket not found"
  | some ticket =>
    if userRole = UserRole.Developer ∧ ticket.AssignedDeveloperId ≠ some userId then
      HistoryResult.Forbid
    else if userRole = UserRole.EndUser ∧ ticket.CreatedByUserId ≠ userId then
      HistoryResult.Forbid
    else
      HistoryResult.Ok (List.insertionSort (fun a b => a.ChangedAt ≤ b.ChangedAt)
        (db.histories.filter
          (fun h => h.TicketId == id && (allowedActions userRole).contains h.Action)))

/-- The controller's `AllowedExtensions` set. -/
def AllowedExtensions : List String :=
  [".png", ".jpg", ".jpeg", ".pdf", ".txt", ".log", ".json"]

/-- `MaxImageSize` (5 MB). -/
def MaxImageSize : Nat := 5 * 1024 * 1024

/-- `MaxOtherFileSize` (2 MB). -/
def MaxOtherFileSize : Nat := 2 * 1024 * 1024

/-- `Path.GetExtension`: the final dot-suffix, empty when no dot. -/
def getExtension (fileName : String) : String :=
  if fileName.data.contains '.' then
    ⟨'.' :: (fileName.data.reverse.takeWhile (fun c => c ≠ '.')).reverse⟩
  else ""

/-- `ImageCompressionService.IsImageContentType`: membership in its
case-insensitive supported-type set. -/
def IsImageContentType (contentType : String) : Bool :=
  ["image/png", "image/jpeg", "image/jpg"].contains (toLowerStr contentType)

/-- The file-validation loop of `SendMessage`: the first offending file's
error message, if any (extension allow-list is case-insensitive). -/
def validateFiles : List FileUpload → Option String
  | [] => none
  | file :: rest =>
    let ext := getExtension file.FileName
    if ¬ (AllowedExtensions.map toLowerStr).contains (toLowerStr ext) then
      some ("File type " ++ ext ++ " is not allowed. Allowed: " ++
        String.intercalate ", " AllowedExtensions)
    else
      let maxSize := if IsImageContentType file.ContentType then MaxImageSize
                     else MaxOtherFileSize
      if file.Length > maxSize then
        some ("File " ++ file.FileName ++ " exceeds the maximum size of " ++
          toString (maxSize / 1024 / 1024) ++ "MB")
      else validateFiles rest

/-- `SendMessage`: guarded message creation with optional attachments;
disk writes and image recompression are external I/O, the recorded
attachment metadata is kept (sizes as declared by the upload). -/
def SendMessage (db : Db) (userId : Nat) (userRole : UserRole) (id : Nat)
    (message : Option String) (files : List FileUpload) (now : Nat) : ApiResult × Db :=
  -- GetTicketWithAccessCheck
  match findTicket db id with
  | none => (ApiResult.NotFound "Ticket not found", db)
  | some ticket =>
    if userRole = UserRole.Developer ∧ ticket.AssignedDeveloperId ≠ some userId then
      (ApiResult.Forbid, db)
    else if userRole = UserRole.EndUser ∧ ticket.CreatedByUserId ≠ userId then
      (ApiResult.Forbid, db)
    -- Cannot send messages to closed or archived tickets
    else if ticket.Status = TicketStatus.Closed then
      (ApiResult.BadRequest "Cannot send messages to closed tickets", db)
    else if ticket.IsArchived then
      (ApiResult.BadRequest "Cannot send messages to archived tickets", db)
    -- Block uploads when ticket is Resolved
    else if files ≠ [] ∧ ticket.Status = TicketStatus.Resolved then
      (ApiResult.BadRequest "Cannot attach files to resolved tickets", db)
    -- Either message or files must be provided
    else if isNullOrWhiteSpace (message.getD "") ∧ files = [] then
      (ApiResult.BadRequest "Message or attachment is required", db)
    else match validateFiles files with
    | some msg => (ApiResult.BadRequest msg, db)
    | none =>
      let m : TicketMessage :=
        { TicketId := id, SenderId := userId,
          Message := trimStr (message.getD ""), SentAt := now }
      let db1 := { db with messages := db.messages ++ [m] }
      if files = [] then (ApiResult.Ok, db1)
      else
        let newAttachments := files.map (fun f =>
          { OriginalFileName := f.FileName
            ContentType := f.ContentType
            FileSize := f.Length
            UploadedByUserId := userId
            CreatedAt := now : TicketAttachment })
        let db2 := { db1 with attachments := db1.attachments ++ newAttachments }
        -- Log attachment upload to history
        let fileNames := String.intercalate ", "
          (newAttachments.map TicketAttachment.OriginalFileName)
        let db3 := AddHistory db2 id TicketAction.AttachmentAdded none (some fileNames)
                     (some (toString files.length ++ " file(s) attached")) userId now
        (ApiResult.Ok, db3)

/-! ### Helper lemmas -/

/-- Persisting a mutated ticket entity keyed like the one `findTicket`
returned makes the next `findTicket` return the mutated entity. -/
theorem find?_map_replace (l : List Ticket) (id : Nat) (t t' : Ticket)
    (h : l.find? (fun u => u.Id == id) = some t) (hid : t'.Id = t.Id) :
    (l.map (fun u => if u.Id = t'.Id then t' else u)).find? (fun u => u.Id == id) = some t' := by
  have htid : t.Id = id := by
    have := List.find?_some h
    simpa using this
  induction l with
  | nil => simp at h
  | cons a l ih =>
    by_cases ha : a.Id = id
    · have hat : a = t := by
        rw [List.find?_cons_of_pos _ (by simpa using ha)] at h
        simpa using h
      simp only [List.map_cons]
      have hfa : (if a.Id = t'.Id then t' else a) = t' := by
        rw [if_pos (by rw [hid, ← hat])]
      rw [hfa, List.find?_cons_of_pos _ (by simp [hid, hat, htid])]
    · simp only [List.map_cons]
      rw [List.find?_cons_of_neg _ (by simpa using ha)] at h
      have hfa : (if a.Id = t'.Id then t' else a) = a := by
        rw [if_neg (by rw [hid, htid]; exact ha)]
      rw [hfa, List.find?_cons_of_neg _ (by simpa using ha)]
      exact ih h

/-- `findTicket` after `setTicket` with an entity of the same key. -/
theorem findTicket_setTicket (db : Db) (id : Nat) (t t' : Ticket)
    (h : findTicket db id = some t) (hid : t'.Id = t.Id) :
    findTicket (setTicket db t') id = some t' :=
  find?_map_replace db.tickets id t t' h hid

theorem findTicket_AddHistory (db : Db) (id ticketId : Nat) (a : TicketAction)
    (ov nv c : Option String) (uid now : Nat) :
    findTicket (AddHistory db ticketId a ov nv c uid now) id = findTicket db id := rfl

theorem findTicket_CreateNotification (db : Db) (id uid' : Nat) (ty : NotificationType)
    (msg : String) (tid now : Nat) :
    findTicket (CreateNotification db uid' ty msg tid now) id = findTicket db id := rfl

theorem findTicket_CreateNotificationsForUsers (db : Db) (id : Nat) (uids : List Nat)
    (ty : NotificationType) (msg : String) (tid now : Nat) :
    findTicket (CreateNotificationsForUsers db uids ty msg tid now) id = findTicket db id := rfl

/-! ### C1 -/

/-- Auxiliary to C1: `UpdateTicketStatus` on a Closed ticket is rejected,
whatever the caller's role and requested status, and the store is
untouched. -/
theorem updateStatus_closed_rejected (db : Db) (uid : Nat) (role : UserRole) (id : Nat)
    (dto : UpdateTicketStatusDto) (now : Nat) (t : Ticket)
    (hf : findTicket db id = some t) (hc : t.Status = TicketStatus.Closed) :
    (UpdateTicketStatus db uid role id dto now).1 ≠ ApiResult.Ok ∧
    (UpdateTicketStatus db uid role id dto now).2 = db := by
  unfold UpdateTicketStatus
  rw [hf]
  split
  · exact ⟨by simp, rfl⟩
  · simp only [hc, ValidateStatusTransition, if_pos rfl]
    split
    · exact ⟨by simp, rfl⟩
    · split
      · exact ⟨by simp, rfl⟩
      · simp

/-- The status of the ticket a given id resolves to, after some database
state. -/
def statusOf (db : Db) (id : Nat) : Option TicketStatus :=
  (findTicket db id).map Ticket.Status

/-- `AssignTicket` on a Closed ticket is rejected and the store is
untouched. -/
theorem assign_closed_rejected (db : Db) (uid : Nat) (role : UserRole) (id : Nat)
    (dto : AssignTicketDto) (now : Nat) (t : Ticket)
    (hf : findTicket db id = some t) (hc : t.Status = TicketStatus.Closed) :
    (AssignTicket db uid role id dto now).1 ≠ ApiResult.Ok ∧
    (AssignTicket db uid role id dto now).2 = db := by
  unfold AssignTicket
  simp only [hf]
  split
  · exact ⟨by simp, rfl⟩
  · exact ⟨by simp, rfl⟩

/-- `ReassignTicket` on a Closed ticket is rejected and the store is
untouched. -/
theorem reassign_closed_rejected (db : Db) (uid : Nat) (role : UserRole) (id : Nat)
    (dto : AssignTicketDto) (now : Nat) (t : Ticket)
    (hf : findTicket db id = some t) (hc : t.Status = TicketStatus.Closed) :
    (ReassignTicket db uid role id dto now).1 ≠ ApiResult.Ok ∧
    (ReassignTicket db uid role id dto now).2 = db := by
  unfold ReassignTicket
  simp only [hf]
  split
  · exact ⟨by simp, rfl⟩
  · exact ⟨by simp, rfl⟩

/-- `CloseTicket` on an already Closed ticket is rejected and the store is
untouched. -/
theorem close_closed_rejected (db : Db) (uid : Nat) (role : UserRole) (id : Nat)
    (dto : Option CloseTicketDto) (now : Nat) (t : Ticket)
    (hf : findTicket db id = some t) (hc : t.Status = TicketStatus.Closed) :
    (CloseTicket db uid role id dto now).1 ≠ ApiResult.Ok ∧
    (CloseTicket db uid role id dto now).2 = db := by
  unfold CloseTicket
  simp only [hf]
  split
  · exact ⟨by simp, rfl⟩
  · split
    · exact ⟨by simp, rfl⟩
    · exact ⟨by simp, rfl⟩

/-- `ReopenTicket` on a ticket that is not Resolved is rejected and the
store is untouched. -/
theorem reopen_not_resolved_rejected (db : Db) (uid : Nat) (role : UserRole) (id : Nat)
    (dto : ReopenTicketDto) (now : Nat) (t : Ticket)
    (hf : findTicket db id = some t) (hr : t.Status ≠ TicketStatus.Resolved) :
    (ReopenTicket db uid role id dto now).1 ≠ ApiResult.Ok ∧
    (ReopenTicket db uid role id dto now).2 = db := by
  unfold ReopenTicket
  simp only [hf]
  split
  · exact ⟨by simp, rfl⟩
  · split
    · exact ⟨by simp, rfl⟩
    · split
      · exact ⟨by simp, rfl⟩
      · split
        · exact ⟨by simp, rfl⟩
        · exact ⟨by simp, rfl⟩

/-- `SendMessage` on a Closed ticket is rejected and the store is
untouched. -/
theorem sendMessage_closed_rejected (db : Db) (uid : Nat) (role : UserRole) (id : Nat)
    (msg : Option String) (files : List FileUpload) (now : Nat) (t : Ticket)
    (hf : findTicket db id = some t) (hc : t.Status = TicketStatus.Closed) :
    (SendMessage db uid role id msg files now).1 ≠ ApiResult.Ok ∧
    (SendMessage db uid role id msg files now).2 = db := by
  unfold SendMessage
  simp only [hf]
  split
  · exact ⟨by simp, rfl⟩
  · split
    · exact ⟨by simp, rfl⟩
    · exact ⟨by simp, rfl⟩

/-- `ArchiveTicket` never changes the status of a Closed ticket (it only
sets the orthogonal archived flag). -/
theorem archive_preserves_closed (db : Db) (uid : Nat) (role : UserRole) (id : Nat)
    (now : Nat) (t : Ticket)
    (hf : findTicket db id = some t) (hc : t.Status = TicketStatus.Closed) :
    statusOf (ArchiveTicket db uid role id now).2 id = some TicketStatus.Closed := by
  unfold ArchiveTicket
  simp only [hf]
  split
  · simp [statusOf, hf, hc]
  · rw [if_neg (by simp [hc])]
    split
    · simp [statusOf, hf, hc]
    · simp only [statusOf, findTicket_AddHistory]
      rw [findTicket_setTicket db id t
        { t with IsArchived := true, ArchivedAt := some now,
                 ArchivedByUserId := some uid, UpdatedAt := now } hf rfl]
      simp [hc]

/-- `UnarchiveTicket` never changes the status of a Closed ticket. -/
theorem unarchive_preserves_closed (db : Db) (uid : Nat) (role : UserRole) (id : Nat)
    (now : Nat) (t : Ticket)
    (hf : findTicket db id = some t) (hc : t.Status = TicketStatus.Closed) :
    statusOf (UnarchiveTicket db uid role id now).2 id = some TicketStatus.Closed := by
  unfold UnarchiveTicket
  simp only [hf]
  split
  · simp [statusOf, hf, hc]
  · split
    · simp [statusOf, hf, hc]
    · simp only [statusOf, findTicket_AddHistory]
      rw [findTicket_setTicket db id t
        { t with IsArchived := false, ArchivedAt := none,
                 ArchivedByUserId := none, UpdatedAt := now } hf rfl]
      simp [hc]

/-- A rejected call leaves the status of the found ticket unchanged. -/
theorem statusOf_of_eq (db db' : Db) (id : Nat) (t : Ticket)
    (hf : findTicket db id = some t) (hc : t.Status = TicketStatus.Closed)
    (h : db' = db) : statusOf db' id = some TicketStatus.Closed := by
  subst h; simp [statusOf, hf, hc]

/-- C1: on a ticket whose current status is Closed, `UpdateTicketStatus`
rejects every request — any caller role, any requested target status —
and leaves the store (hence the ticket's status) untouched; the other
mutating actions (assign, reassign, close, reopen, message) likewise
never mutate it, and the admin archive / unarchive toggles leave the
status equal to Closed. -/
theorem closed_is_terminal (db : Db) (uid : Nat) (role : UserRole) (id : Nat) (now : Nat)
    (dtoU : UpdateTicketStatusDto) (dtoA dtoRe : AssignTicketDto)
    (dtoC : Option CloseTicketDto) (dtoR : ReopenTicketDto)
    (msg : Option String) (files : List FileUpload) (t : Ticket)
    (hf : findTicket db id = some t) (hc : t.Status = TicketStatus.Closed) :
    ((UpdateTicketStatus db uid role id dtoU now).1 ≠ ApiResult.Ok ∧
     (UpdateTicketStatus db uid role id dtoU now).2 = db) ∧
    statusOf (AssignTicket db uid role id dtoA now).2 id = some TicketStatus.Closed ∧
    statusOf (ReassignTicket db uid role id dtoRe now).2 id = some TicketStatus.Closed ∧
    statusOf (CloseTicket db uid role id dtoC now).2 id = some TicketStatus.Closed ∧
    statusOf (ReopenTicket db uid role id dtoR now).2 id = some TicketStatus.Closed ∧
    statusOf (SendMessage db uid role id msg files now).2 id = some TicketStatus.Closed ∧
    statusOf (ArchiveTicket db uid role id now).2 id = some TicketStatus.Closed ∧
    statusOf (UnarchiveTicket db uid role id now).2 id = some TicketStatus.Closed := by
  refine ⟨updateStatus_closed_rejected db uid role id dtoU now t hf hc, ?_, ?_, ?_, ?_, ?_, ?_, ?_⟩
  · exact statusOf_of_eq _ _ _ _ hf hc (assign_closed_rejected db uid role id dtoA now t hf hc).2
  · exact statusOf_of_eq _ _ _ _ hf hc (reassign_closed_rejected db uid role id dtoRe now t hf hc).2
  · exact statusOf_of_eq _ _ _ _ hf hc (close_closed_rejected db uid role id dtoC now t hf hc).2
  · exact statusOf_of_eq _ _ _ _ hf hc
      (reopen_not_resolved_rejected db uid role id dtoR now t hf (by rw [hc]; simp)).2
  · exact statusOf_of_eq _ _ _ _ hf hc (sendMessage_closed_rejected db uid role id msg files now t hf hc).2
  · exact archive_preserves_closed db uid role id now t hf hc
  · exact unarchive_preserves_closed db uid role id now t hf hc

/-- A Closed, unarchived sample ticket. -/
def closedTicket : Ticket :=
  { Id := 1, Title := "T", Description := none, «Type» := TicketType.Bug,
    Status := TicketStatus.Closed, Priority := TicketPriority.Medium,
    CreatedAt := 0, UpdatedAt := 0, AssignedAt := none, InProgressAt := none,
    ResolvedAt := none, ReopenedAt := none, ClosedAt := some 0, ReopenCount := 0,
    SatisfactionScore := none, SatisfactionComment := none, RatedAt := none,
    IsArchived := false, ArchivedAt := none, ArchivedByUserId := none,
    ProjectId := 1, AssignedDeveloperId := some 2, CreatedByUserId := 3 }

/-- A store holding one admin (id 9), one developer (id 2), one end user
(id 3) and the Closed ticket. -/
def dbClosed : Db :=
  { projects := [{ Id := 1, IsActive := true }],
    users := [{ Id := 9, Name := "A", Role := UserRole.Admin, IsActive := true },
              { Id := 2, Name := "D", Role := UserRole.Developer, IsActive := true },
              { Id := 3, Name := "U", Role := UserRole.EndUser, IsActive := true }],
    tickets := [closedTicket],
    histories := [], notifications := [], messages := [], attachments := [],
    nextTicketId := 2 }

/-- C1 witness: the terminal-Closed rule, instantiated at a concrete
store, an Admin caller and concrete requests. -/
theorem closed_is_terminal_witness :
    ((UpdateTicketStatus dbClosed 9 UserRole.Admin 1 { Status := "Open", Comments := none } 5).1 ≠ ApiResult.Ok ∧
     (UpdateTicketStatus dbClosed 9 UserRole.Admin 1 { Status := "Open", Comments := none } 5).2 = dbClosed) ∧
    statusOf (AssignTicket dbClosed 9 UserRole.Admin 1 { DeveloperId := 2 } 5).2 1 = some TicketStatus.Closed ∧
    statusOf (ReassignTicket dbClosed 9 UserRole.Admin 1 { DeveloperId := 2 } 5).2 1 = some TicketStatus.Closed ∧
    statusOf (CloseTicket dbClosed 9 UserRole.Admin 1 none 5).2 1 = some TicketStatus.Closed ∧
    statusOf (ReopenTicket dbClosed 9 UserRole.Admin 1 { Comment := "c" } 5).2 1 = some TicketStatus.Closed ∧
    statusOf (SendMessage dbClosed 9 UserRole.Admin 1 none [] 5).2 1 = some TicketStatus.Closed ∧
    statusOf (ArchiveTicket dbClosed 9 UserRole.Admin 1 5).2 1 = some TicketStatus.Closed ∧
    statusOf (UnarchiveTicket dbClosed 9 UserRole.Admin 1 5).2 1 = some TicketStatus.Closed :=
  closed_is_terminal dbClosed 9 UserRole.Admin 1 5
    { Status := "Open", Comments := none } { DeveloperId := 2 } { DeveloperId := 2 }
    none { Comment := "c" } none [] closedTicket rfl rfl

/-! ### C2 -/

/-- C2: an EndUser (requester) is never shown a ticket they did not
create and a Developer (assignee) is never shown a ticket not assigned
to them — in the listing, which filters by the caller's relationship,
and in `GetTicket`, where the denied request receives Forbid (the ticket
was found, so the response is not NotFound). -/
theorem role_visibility (db : Db) (uid : Nat) (inc : Bool) (id : Nat) :
    (∀ t ∈ GetTickets db uid UserRole.EndUser inc, t.CreatedByUserId = uid) ∧
    (∀ t ∈ GetTickets db uid UserRole.Developer inc, t.AssignedDeveloperId = some uid) ∧
    (∀ t, findTicket db id = some t → t.CreatedByUserId ≠ uid →
      GetTicket db uid UserRole.EndUser id = TicketResult.Forbid) ∧
    (∀ t, findTicket db id = some t → t.AssignedDeveloperId ≠ some uid →
      GetTicket db uid UserRole.Developer id = TicketResult.Forbid) := by
  refine ⟨?_, ?_, ?_, ?_⟩
  · intro t ht
    unfold GetTickets at ht
    rw [List.mem_insertionSort] at ht
    simp only [List.mem_filter] at ht
    split at ht <;> simpa using ht.2
  · intro t ht
    unfold GetTickets at ht
    rw [List.mem_insertionSort] at ht
    simp only [List.mem_filter] at ht
    split at ht <;> simpa using ht.2
  · intro t hf h
    unfold GetTicket
    rw [hf]
    simp [h]
  · intro t hf h
    unfold GetTicket
    rw [hf]
    simp [h]

/-- C2 witness: user 5 is neither the creator (3) nor the assignee (2)
of the sample ticket and receives Forbid from `GetTicket` in both
non-admin roles. -/
theorem role_visibility_witness :
    GetTicket dbClosed 5 UserRole.EndUser 1 = TicketResult.Forbid ∧
    GetTicket dbClosed 5 UserRole.Developer 1 = TicketResult.Forbid :=
  ⟨(role_visibility dbClosed 5 true 1).2.2.1 closedTicket rfl (by decide),
   (role_visibility dbClosed 5 true 1).2.2.2 closedTicket rfl (by decide)⟩

/-! ### C3 -/

/-- Variant of `findTicket_setTicket` usable as a conditional rewrite. -/
theorem findTicket_setTicket_cond (db : Db) (id : Nat) (t : Ticket)
    (hf : findTicket db id = some t) {t' : Ticket} (hid : t'.Id = t.Id) :
    findTicket (setTicket db t') id = some t' :=
  find?_map_replace db.tickets id t t' hf hid

/-- An accepted `UpdateTicketStatus` appends exactly one history row (for
the mutated ticket) and stamps the ticket's `UpdatedAt` with the request
time. -/
theorem updateStatus_accepted_audit (db : Db) (uid : Nat) (role : UserRole) (id : Nat)
    (dto : UpdateTicketStatusDto) (now : Nat) (db' : Db) (t : Ticket)
    (hf : findTicket db id = some t)
    (h : UpdateTicketStatus db uid role id dto now = (ApiResult.Ok, db')) :
    (∃ e : TicketHistory, db'.histories = db.histories ++ [e] ∧ e.TicketId = t.Id) ∧
    (findTicket db' id).map Ticket.UpdatedAt = some now := by
  unfold UpdateTicketStatus at h
  simp only [hf] at h
  split at h
  · simp at h
  · split at h
    · simp at h
    · split at h
      · simp at h
      · split at h
        · simp at h
        · split at h
          · simp only [Prod.mk.injEq, true_and] at h
            subst h
            rename_i hx ns heq hv hr
            constructor
            · simp only [AddHistory, CreateNotification, setTicket]
              exact ⟨_, rfl, rfl⟩
            · subst hr
              simp [findTicket_CreateNotification, findTicket_AddHistory,
                findTicket_setTicket_cond db id t hf]
          · simp only [Prod.mk.injEq, true_and] at h
            subst h
            rename_i hx ns heq hv hr
            constructor
            · simp only [AddHistory, setTicket]
              exact ⟨_, rfl, rfl⟩
            · clear heq hv hr
              cases ns <;>
                simp [findTicket_AddHistory, findTicket_setTicket_cond db id t hf]

/-- An accepted `CreateTicket` stores one new ticket stamped with the
request time and appends exactly one history row for it. -/
theorem create_accepted_audit (db : Db) (uid : Nat) (role : UserRole)
    (dto : CreateTicketDto) (now : Nat) (db' : Db)
    (h : CreateTicket db uid role dto now = (ApiResult.Ok, db')) :
    ∃ tk : Ticket, ∃ e : TicketHistory,
      db'.tickets = db.tickets ++ [tk] ∧ tk.UpdatedAt = now ∧
      db'.histories = db.histories ++ [e] ∧ e.TicketId = tk.Id := by
  unfold CreateTicket at h
  split at h
  · simp at h
  · split at h
    · simp at h
    · split at h
      · simp at h
      · split at h
        · simp at h
        · split at h
          · simp at h
          · simp only [Prod.mk.injEq, true_and] at h
            subst h
            simp only [CreateNotificationsForUsers, AddHistory]
            exact ⟨_, _, rfl, rfl, rfl, rfl⟩

/-- An accepted `AssignTicket` appends exactly one history row for the
ticket and stamps its `UpdatedAt` with the request time. -/
theorem assign_accepted_audit (db : Db) (uid : Nat) (role : UserRole) (id : Nat)
    (dto : AssignTicketDto) (now : Nat) (db' : Db) (t : Ticket)
    (hf : findTicket db id = some t)
    (h : AssignTicket db uid role id dto now = (ApiResult.Ok, db')) :
    (∃ e : TicketHistory, db'.histories = db.histories ++ [e] ∧ e.TicketId = t.Id) ∧
    (findTicket db' id).map Ticket.UpdatedAt = some now := by
  unfold AssignTicket at h
  simp only [hf] at h
  split at h
  · simp at h
  · split at h
    · simp at h
    · split at h
      · simp at h
      · split at h
        · simp at h
        · simp only [Prod.mk.injEq, true_and] at h
          subst h
          constructor
          · simp only [AddHistory, CreateNotification, setTicket]
            exact ⟨_, rfl, rfl⟩
          · simp only [findTicket_CreateNotification, findTicket_AddHistory]
            split <;> simp [findTicket_setTicket_cond db id t hf]

/-- An accepted `CloseTicket` appends exactly one history row for the
ticket and stamps its `UpdatedAt` with the request time. -/
theorem close_accepted_audit (db : Db) (uid : Nat) (role : UserRole) (id : Nat)
    (dto : Option CloseTicketDto) (now : Nat) (db' : Db) (t : Ticket)
    (hf : findTicket db id = some t)
    (h : CloseTicket db uid role id dto now = (ApiResult.Ok, db')) :
    (∃ e : TicketHistory, db'.histories = db.histories ++ [e] ∧ e.TicketId = t.Id) ∧
    (findTicket db' id).map Ticket.UpdatedAt = some now := by
  unfold CloseTicket at h
  simp only [hf] at h
  split at h
  · simp at h
  · split at h
    · simp at h
    · split at h
      · simp at h
      · split at h
        · simp only [Prod.mk.injEq, true_and] at h
          subst h
          constructor
          · simp only [AddHistory, CreateNotification, setTicket]
            exact ⟨_, rfl, rfl⟩
          · simp [findTicket_CreateNotification, findTicket_AddHistory,
              findTicket_setTicket_cond db id t hf]
        · split at h
          · simp at h
          · simp only [Prod.mk.injEq, true_and] at h
            subst h
            constructor
            · simp only [AddHistory, CreateNotification, setTicket]
              exact ⟨_, rfl, rfl⟩
            · simp [findTicket_CreateNotification, findTicket_AddHistory,
                findTicket_setTicket_cond db id t hf]

/-- An accepted `ReopenTicket` appends exactly one history row for the
ticket and stamps its `UpdatedAt` with the request time. -/
theorem reopen_accepted_audit (db : Db) (uid : Nat) (role : UserRole) (id : Nat)
    (dto : ReopenTicketDto) (now : Nat) (db' : Db) (t : Ticket)
    (hf : findTicket db id = some t)
    (h : ReopenTicket db uid role id dto now = (ApiResult.Ok, db')) :
    (∃ e : TicketHistory, db'.histories = db.histories ++ [e] ∧ e.TicketId = t.Id) ∧
    (findTicket db' id).map Ticket.UpdatedAt = some now := by
  unfold ReopenTicket at h
  simp only [hf] at h
  split at h
  · simp at h
  · split at h
    · simp at h
    · split at h
      · simp at h
      · split at h
        · simp at h
        · split at h
          · simp at h
          · simp only [Prod.mk.injEq, true_and] at h
            subst h
            cases hdev : t.AssignedDeveloperId with
            | none =>
              simp only [hdev]
              constructor
              · simp only [CreateNotificationsForUsers, AddHistory, setTicket]
                exact ⟨_, rfl, rfl⟩
              · simp [findTicket_CreateNotificationsForUsers, findTicket_AddHistory,
                  findTicket_setTicket_cond db id t hf]
            | some devId =>
              simp only [hdev]
              constructor
              · simp only [CreateNotificationsForUsers, CreateNotification, AddHistory, setTicket]
                exact ⟨_, rfl, rfl⟩
              · simp [findTicket_CreateNotificationsForUsers, findTicket_CreateNotification,
                  findTicket_AddHistory, findTicket_setTicket_cond db id t hf]

/-- An accepted `ArchiveTicket` appends exactly one history row for the
ticket and stamps its `UpdatedAt` with the request time. -/
theorem archive_accepted_audit (db : Db) (uid : Nat) (role : UserRole) (id : Nat)
    (now : Nat) (db' : Db) (t : Ticket)
    (hf : findTicket db id = some t)
    (h : ArchiveTicket db uid role id now = (ApiResult.Ok, db')) :
    (∃ e : TicketHistory, db'.histories = db.histories ++ [e] ∧ e.TicketId = t.Id) ∧
    (findTicket db' id).map Ticket.UpdatedAt = some now := by
  unfold ArchiveTicket at h
  simp only [hf] at h
  split at h
  · simp at h
  · split at h
    · simp at h
    · split at h
      · simp at h
      · simp only [Prod.mk.injEq, true_and] at h
        subst h
        constructor
        · simp only [AddHistory, setTicket]
          exact ⟨_, rfl, rfl⟩
        · simp [findTicket_AddHistory, findTicket_setTicket_cond db id t hf]

/-- An accepted `UnarchiveTicket` appends exactly one history row for the
ticket and stamps its `UpdatedAt` with the request time. -/
theorem unarchive_accepted_audit (db : Db) (uid : Nat) (role : UserRole) (id : Nat)
    (now : Nat) (db' : Db) (t : Ticket)
    (hf : findTicket db id = some t)
    (h : UnarchiveTicket db uid role id now = (ApiResult.Ok, db')) :
    (∃ e : TicketHistory, db'.histories = db.histories ++ [e] ∧ e.TicketId = t.Id) ∧
    (findTicket db' id).map Ticket.UpdatedAt = some now := by
  unfold UnarchiveTicket at h
  simp only [hf] at h
  split at h
  · simp at h
  · split at h
    · simp at h
    · simp only [Prod.mk.injEq, true_and] at h
      subst h
      constructor
      · simp only [AddHistory, setTicket]
        exact ⟨_, rfl, rfl⟩
      · simp [findTicket_AddHistory, findTicket_setTicket_cond db id t hf]

/-- C3: every accepted mutation — create, assign, status change, close,
reopen, archive, unarchive — appends exactly one new history row to the
mutated ticket's audit trail and advances the ticket's `UpdatedAt` to
the time of the mutation. -/
theorem accepted_mutation_audit
    (dbC : Db) (uidC : Nat) (roleC : UserRole) (dtoC : CreateTicketDto) (nowC : Nat) (dbC' : Db)
    (hC : CreateTicket dbC uidC roleC dtoC nowC = (ApiResult.Ok, dbC'))
    (dbA : Db) (uidA : Nat) (roleA : UserRole) (idA : Nat) (dtoA : AssignTicketDto)
    (nowA : Nat) (dbA' : Db) (tA : Ticket) (hfA : findTicket dbA idA = some tA)
    (hA : AssignTicket dbA uidA roleA idA dtoA nowA = (ApiResult.Ok, dbA'))
    (dbU : Db) (uidU : Nat) (roleU : UserRole) (idU : Nat) (dtoU : UpdateTicketStatusDto)
    (nowU : Nat) (dbU' : Db) (tU : Ticket) (hfU : findTicket dbU idU = some tU)
    (hU : UpdateTicketStatus dbU uidU roleU idU dtoU nowU = (ApiResult.Ok, dbU'))
    (dbL : Db) (uidL : Nat) (roleL : UserRole) (idL : Nat) (dtoL : Option CloseTicketDto)
    (nowL : Nat) (dbL' : Db) (tL : Ticket) (hfL : findTicket dbL idL = some tL)
    (hL : CloseTicket dbL uidL roleL idL dtoL nowL = (ApiResult.Ok, dbL'))
    (dbR : Db) (uidR : Nat) (roleR : UserRole) (idR : Nat) (dtoR : ReopenTicketDto)
    (nowR : Nat) (dbR' : Db) (tR : Ticket) (hfR : findTicket dbR idR = some tR)
    (hR : ReopenTicket dbR uidR roleR idR dtoR nowR = (ApiResult.Ok, dbR'))
    (dbV : Db) (uidV : Nat) (roleV : UserRole) (idV : Nat)
    (nowV : Nat) (dbV' : Db) (tV : Ticket) (hfV : findTicket dbV idV = some tV)
    (hV : ArchiveTicket dbV uidV roleV idV nowV = (ApiResult.Ok, dbV'))
    (dbW : Db) (uidW : Nat) (roleW : UserRole) (idW : Nat)
    (nowW : Nat) (dbW' : Db) (tW : Ticket) (hfW : findTicket dbW idW = some tW)
    (hW : UnarchiveTicket dbW uidW roleW idW nowW = (ApiResult.Ok, dbW')) :
    (∃ tk : Ticket, ∃ e : TicketHistory,
      dbC'.tickets = dbC.tickets ++ [tk] ∧ tk.UpdatedAt = nowC ∧
      dbC'.histories = dbC.histories ++ [e] ∧ e.TicketId = tk.Id) ∧
    ((∃ e : TicketHistory, dbA'.histories = dbA.histories ++ [e] ∧ e.TicketId = tA.Id) ∧
      (findTicket dbA' idA).map Ticket.UpdatedAt = some nowA) ∧
    ((∃ e : TicketHistory, dbU'.histories = dbU.histories ++ [e] ∧ e.TicketId = tU.Id) ∧
      (findTicket dbU' idU).map Ticket.UpdatedAt = some nowU) ∧
    ((∃ e : TicketHistory, dbL'.histories = dbL.histories ++ [e] ∧ e.TicketId = tL.Id) ∧
      (findTicket dbL' idL).map Ticket.UpdatedAt = some nowL) ∧
    ((∃ e : TicketHistory, dbR'.histories = dbR.histories ++ [e] ∧ e.TicketId = tR.Id) ∧
      (findTicket dbR' idR).map Ticket.UpdatedAt = some nowR) ∧
    ((∃ e : TicketHistory, dbV'.histories = dbV.histories ++ [e] ∧ e.TicketId = tV.Id) ∧
      (findTicket dbV' idV).map Ticket.UpdatedAt = some nowV) ∧
    ((∃ e : TicketHistory, dbW'.histories = dbW.histories ++ [e] ∧ e.TicketId = tW.Id) ∧
      (findTicket dbW' idW).map Ticket.UpdatedAt = some nowW) :=
  ⟨create_accepted_audit dbC uidC roleC dtoC nowC dbC' hC,
   assign_accepted_audit dbA uidA roleA idA dtoA nowA dbA' tA hfA hA,
   updateStatus_accepted_audit dbU uidU roleU idU dtoU nowU dbU' tU hfU hU,
   close_accepted_audit dbL uidL roleL idL dtoL nowL dbL' tL hfL hL,
   reopen_accepted_audit dbR uidR roleR idR dtoR nowR dbR' tR hfR hR,
   archive_accepted_audit dbV uidV roleV idV nowV dbV' tV hfV hV,
   unarchive_accepted_audit dbW uidW roleW idW nowW dbW' tW hfW hW⟩

/-- An Open, unassigned sample ticket (same ids as `closedTicket`). -/
def openTicket : Ticket :=
  { closedTicket with Status := TicketStatus.Open, ClosedAt := none,
                      AssignedDeveloperId := none }

/-- A Resolved sample ticket assigned to developer 2. -/
def resolvedTicket : Ticket :=
  { closedTicket with Status := TicketStatus.Resolved, ClosedAt := none }

/-- A Closed and archived sample ticket. -/
def archivedTicket : Ticket :=
  { closedTicket with IsArchived := true, ArchivedAt := some 0,
                      ArchivedByUserId := some 9 }

/-- `dbClosed` with the Open ticket instead. -/
def dbOpen : Db := { dbClosed with tickets := [openTicket] }

/-- `dbClosed` with the Resolved ticket instead. -/
def dbResolved : Db := { dbClosed with tickets := [resolvedTicket] }

/-- `dbClosed` with the archived ticket instead. -/
def dbArchived : Db := { dbClosed with tickets := [archivedTicket] }

/-- A well-formed create request against project 1. -/
def dtoNewTicket : CreateTicketDto :=
  { Title := "N", Description := none, «Type» := "Bug", Priority := "Low", ProjectId := 1 }

/-- C3 witness: one accepted instance of each mutation kind on the
sample stores. -/
theorem accepted_mutation_audit_witness :
    (∃ tk : Ticket, ∃ e : TicketHistory,
      (CreateTicket dbClosed 3 UserRole.EndUser dtoNewTicket 7).2.tickets = dbClosed.tickets ++ [tk] ∧
      tk.UpdatedAt = 7 ∧
      (CreateTicket dbClosed 3 UserRole.EndUser dtoNewTicket 7).2.histories = dbClosed.histories ++ [e] ∧
      e.TicketId = tk.Id) ∧
    ((∃ e : TicketHistory,
        (AssignTicket dbOpen 9 UserRole.Admin 1 { DeveloperId := 2 } 7).2.histories =
          dbOpen.histories ++ [e] ∧ e.TicketId = openTicket.Id) ∧
      (findTicket (AssignTicket dbOpen 9 UserRole.Admin 1 { DeveloperId := 2 } 7).2 1).map Ticket.UpdatedAt = some 7) ∧
    ((∃ e : TicketHistory,
        (UpdateTicketStatus dbOpen 9 UserRole.Admin 1 { Status := "InProgress", Comments := none } 7).2.histories =
          dbOpen.histories ++ [e] ∧ e.TicketId = openTicket.Id) ∧
      (findTicket (UpdateTicketStatus dbOpen 9 UserRole.Admin 1 { Status := "InProgress", Comments := none } 7).2 1).map Ticket.UpdatedAt = some 7) ∧
    ((∃ e : TicketHistory,
        (CloseTicket dbOpen 3 UserRole.EndUser 1 none 7).2.histories =
          dbOpen.histories ++ [e] ∧ e.TicketId = openTicket.Id) ∧
      (findTicket (CloseTicket dbOpen 3 UserRole.EndUser 1 none 7).2 1).map Ticket.UpdatedAt = some 7) ∧
    ((∃ e : TicketHistory,
        (ReopenTicket dbResolved 3 UserRole.EndUser 1 { Comment := "x" } 7).2.histories =
          dbResolved.histories ++ [e] ∧ e.TicketId = resolvedTicket.Id) ∧
      (findTicket (ReopenTicket dbResolved 3 UserRole.EndUser 1 { Comment := "x" } 7).2 1).map Ticket.UpdatedAt = some 7) ∧
    ((∃ e : TicketHistory,
        (ArchiveTicket dbClosed 9 UserRole.Admin 1 7).2.histories =
          dbClosed.histories ++ [e] ∧ e.TicketId = closedTicket.Id) ∧
      (findTicket (ArchiveTicket dbClosed 9 UserRole.Admin 1 7).2 1).map Ticket.UpdatedAt = some 7) ∧
    ((∃ e : TicketHistory,
        (UnarchiveTicket dbArchived 9 UserRole.Admin 1 7).2.histories =
          dbArchived.histories ++ [e] ∧ e.TicketId = archivedTicket.Id) ∧
      (findTicket (UnarchiveTicket dbArchived 9 UserRole.Admin 1 7).2 1).map Ticket.UpdatedAt = some 7) :=
  accepted_mutation_audit
    dbClosed 3 UserRole.EndUser dtoNewTicket 7
      (CreateTicket dbClosed 3 UserRole.EndUser dtoNewTicket 7).2 (by rfl)
    dbOpen 9 UserRole.Admin 1 { DeveloperId := 2 } 7
      (AssignTicket dbOpen 9 UserRole.Admin 1 { DeveloperId := 2 } 7).2 openTicket rfl (by rfl)
    dbOpen 9 UserRole.Admin 1 { Status := "InProgress", Comments := none } 7
      (UpdateTicketStatus dbOpen 9 UserRole.Admin 1 { Status := "InProgress", Comments := none } 7).2 openTicket rfl (by rfl)
    dbOpen 3 UserRole.EndUser 1 none 7
      (CloseTicket dbOpen 3 UserRole.EndUser 1 none 7).2 openTicket rfl (by rfl)
    dbResolved 3 UserRole.EndUser 1 { Comment := "x" } 7
      (ReopenTicket dbResolved 3 UserRole.EndUser 1 { Comment := "x" } 7).2 resolvedTicket rfl (by rfl)
    dbClosed 9 UserRole.Admin 1 7
      (ArchiveTicket dbClosed 9 UserRole.Admin 1 7).2 closedTicket rfl (by rfl)
    dbArchived 9 UserRole.Admin 1 7
      (UnarchiveTicket dbArchived 9 UserRole.Admin 1 7).2 archivedTicket rfl (by rfl)

/-! ### C4 -/

/-- Consistency of the commit trace with the endpoint: the final store of
`UpdateTicketStatus` is the last committed state (or the unchanged store
when nothing was committed). -/
theorem updateStatus_eq_commits_last (db : Db) (uid : Nat) (role : UserRole) (id : Nat)
    (dto : UpdateTicketStatusDto) (now : Nat) :
    (UpdateTicketStatus db uid role id dto now).2 =
      (UpdateTicketStatusCommits db uid role id dto now).getLastD db := by
  unfold UpdateTicketStatus UpdateTicketStatusCommits
  by_cases hauth : ¬ (role = UserRole.Developer ∨ role = UserRole.Admin)
  · simp only [if_pos hauth]
    rfl
  · simp only [if_neg hauth]
    cases hft : findTicket db id with
    | none => rfl
    | some t =>
      by_cases hdev : role = UserRole.Developer ∧ t.AssignedDeveloperId ≠ some uid
      · simp only [if_pos hdev]
        rfl
      · simp only [if_neg hdev]
        cases hp : parseTicketStatus dto.Status with
        | none => rfl
        | some ns =>
          by_cases hv : ¬ (ValidateStatusTransition t.Status ns role).1 = true
          · simp only [if_pos hv]
            rfl
          · simp only [if_neg hv]
            by_cases hns : ns = TicketStatus.Resolved
            · simp only [if_pos hns]
              rfl
            · simp only [if_neg hns]
              rfl

/-- An InProgress sample ticket assigned to developer 2. -/
def inProgressTicket : Ticket :=
  { closedTicket with Status := TicketStatus.InProgress, ClosedAt := none }

/-- `dbClosed` with the InProgress ticket instead. -/
def dbInProgress : Db := { dbClosed with tickets := [inProgressTicket] }

/-- C4 exhibit: developer 2 resolves their assigned InProgress ticket; the
call is accepted and produces three separate commits (ticket row, history
row, notification row).  The first committed state already stores status
Resolved while the audit trail is still empty, so the ticket write and
the history append are not a single atomic unit. -/
theorem status_commit_without_history :
    (UpdateTicketStatus dbInProgress 2 UserRole.Developer 1
        { Status := "Resolved", Comments := none } 7).1 = ApiResult.Ok ∧
    (UpdateTicketStatusCommits dbInProgress 2 UserRole.Developer 1
        { Status := "Resolved", Comments := none } 7).length = 3 ∧
    statusOf ((UpdateTicketStatusCommits dbInProgress 2 UserRole.Developer 1
        { Status := "Resolved", Comments := none } 7).headD dbInProgress) 1 =
      some TicketStatus.Resolved ∧
    ((UpdateTicketStatusCommits dbInProgress 2 UserRole.Developer 1
        { Status := "Resolved", Comments := none } 7).headD dbInProgress).histories =
      dbInProgress.histories := by
  decide

/-! ### C5 -/

/-- C5 counterexample: the requester closes their own ticket while it is
still Open — the controller accepts the request (its only status guard is
"already Closed"), although the claim requires a close to be rejected for
every status other than Resolved. -/
theorem close_accepts_open_ticket :
    openTicket.Status = TicketStatus.Open ∧
    (CloseTicket dbOpen 3 UserRole.EndUser 1 none 7).1 = ApiResult.Ok ∧
    statusOf (CloseTicket dbOpen 3 UserRole.EndUser 1 none 7).2 1 = some TicketStatus.Closed := by
  decide

/-- C5 amended: `CloseTicket`, called by the requester on their own
ticket or by an admin, is rejected exactly when the ticket is already
Closed (or when a provided satisfaction score is out of range), leaving
the store untouched; for every other current status — Open, InProgress,
Resolved, Reopened — with an absent or in-range score the close is
accepted and the ticket ends up Closed. -/
theorem close_spec (db : Db) (uid : Nat) (role : UserRole) (id : Nat)
    (dto : Option CloseTicketDto) (now : Nat) (t : Ticket)
    (hf : findTicket db id = some t)
    (hauth : role = UserRole.Admin ∨ role = UserRole.EndUser)
    (hown : role = UserRole.EndUser → t.CreatedByUserId = uid) :
    (t.Status = TicketStatus.Closed →
      CloseTicket db uid role id dto now = (ApiResult.BadRequest "Ticket is already closed", db)) ∧
    (t.Status ≠ TicketStatus.Closed →
      ∀ score, dto.bind CloseTicketDto.SatisfactionScore = some score →
        (score < 1 ∨ score > 5) →
        CloseTicket db uid role id dto now =
          (ApiResult.BadRequest "Satisfaction score must be between 1 and 5", db)) ∧
    (t.Status ≠ TicketStatus.Closed →
      (∀ score, dto.bind CloseTicketDto.SatisfactionScore = some score → 1 ≤ score ∧ score ≤ 5) →
      (CloseTicket db uid role id dto now).1 = ApiResult.Ok ∧
      statusOf (CloseTicket db uid role id dto now).2 id = some TicketStatus.Closed) := by
  have hnauth : ¬ ¬ (role = UserRole.Admin ∨ role = UserRole.EndUser) := not_not_intro hauth
  have hnown : ¬ (role = UserRole.EndUser ∧ t.CreatedByUserId ≠ uid) :=
    fun ⟨h1, h2⟩ => h2 (hown h1)
  refine ⟨?_, ?_, ?_⟩
  · intro hc
    unfold CloseTicket
    simp only [hf, if_neg hnauth, if_neg hnown, if_pos hc]
  · intro hnc score hsc hbad
    unfold CloseTicket
    simp only [hf, if_neg hnauth, if_neg hnown, if_neg hnc, hsc, if_pos hbad]
  · intro hnc hgood
    unfold CloseTicket
    simp only [hf, if_neg hnauth, if_neg hnown, if_neg hnc]
    cases hsc : dto.bind CloseTicketDto.SatisfactionScore with
    | none =>
      refine ⟨rfl, ?_⟩
      simp [statusOf, findTicket_CreateNotification, findTicket_AddHistory,
        findTicket_setTicket_cond db id t hf]
    | some score =>
      have hrange := hgood score hsc
      simp only [hsc]
      have hok : ¬ (score < 1 ∨ score > 5) := by omega
      rw [if_neg hok]
      refine ⟨rfl, ?_⟩
      simp [statusOf, findTicket_CreateNotification, findTicket_AddHistory,
        findTicket_setTicket_cond db id t hf]

/-- C5 witness for the amended claim: requester 3 closes their Open
ticket without a rating; the close is accepted and the ticket is Closed. -/
theorem close_spec_witness :
    (CloseTicket dbOpen 3 UserRole.EndUser 1 none 7).1 = ApiResult.Ok ∧
    statusOf (CloseTicket dbOpen 3 UserRole.EndUser 1 none 7).2 1 = some TicketStatus.Closed :=
  (close_spec dbOpen 3 UserRole.EndUser 1 none 7 openTicket rfl (Or.inr rfl)
    (fun _ => rfl)).2.2 (by decide) (fun score hs => by simp at hs)

/-! ### C6 -/

/-- C6 counterexample: the requester's accepted close of their Resolved
ticket creates a Notification row (TicketClosed, to the creator), although
the claim requires that an accepted close notifies nobody. -/
theorem close_creates_notification :
    (CloseTicket dbResolved 3 UserRole.EndUser 1 none 7).1 = ApiResult.Ok ∧
    (CloseTicket dbResolved 3 UserRole.EndUser 1 none 7).2.notifications =
      dbResolved.notifications ++
        [{ UserId := 3, «Type» := NotificationType.TicketClosed,
           Message := "Your ticket has been closed: T", RelatedTicketId := 1,
           IsRead := false, CreatedAt := 7 }] := by
  decide

/-- C6 amended: every accepted `CloseTicket` creates exactly one
Notification row — recipient the ticket's creator, type TicketClosed. -/
theorem close_notifies_creator (db : Db) (uid : Nat) (role : UserRole) (id : Nat)
    (dto : Option CloseTicketDto) (now : Nat) (db' : Db) (t : Ticket)
    (hf : findTicket db id = some t)
    (h : CloseTicket db uid role id dto now = (ApiResult.Ok, db')) :
    db'.notifications = db.notifications ++
      [{ UserId := t.CreatedByUserId, «Type» := NotificationType.TicketClosed,
         Message := "Your ticket has been closed: " ++ t.Title,
         RelatedTicketId := t.Id, IsRead := false, CreatedAt := now }] := by
  unfold CloseTicket at h
  simp only [hf] at h
  split at h
  · simp at h
  · split at h
    · simp at h
    · split at h
      · simp at h
      · split at h
        · simp only [Prod.mk.injEq, true_and] at h
          subst h
          simp [CreateNotification, AddHistory, setTicket]
        · split at h
          · simp at h
          · simp only [Prod.mk.injEq, true_and] at h
            subst h
            simp [CreateNotification, AddHistory, setTicket]

/-- C6 witness for the amended claim: the concrete accepted close of the
Resolved sample ticket appends exactly the creator's TicketClosed row. -/
theorem close_notifies_creator_witness :
    (CloseTicket dbResolved 3 UserRole.EndUser 1 none 7).2.notifications =
      dbResolved.notifications ++
        [{ UserId := resolvedTicket.CreatedByUserId, «Type» := NotificationType.TicketClosed,
           Message := "Your ticket has been closed: " ++ resolvedTicket.Title,
           RelatedTicketId := resolvedTicket.Id, IsRead := false, CreatedAt := 7 }] :=
  close_notifies_creator dbResolved 3 UserRole.EndUser 1 none 7
    (CloseTicket dbResolved 3 UserRole.EndUser 1 none 7).2 resolvedTicket rfl (by rfl)

/-! ### C7 -/

/-- C7: a reopen request with an empty / whitespace-only comment is
rejected with no side effects at all (the guard runs before anything is
loaded or written); an accepted reopen is only possible on a Resolved
ticket with a non-empty comment, increments `reopenCount` by exactly 1,
sets the status to Reopened, and appends notification rows for the
assigned developer (when one is set) and every active admin. -/
theorem reopen_spec (db : Db) (uid : Nat) (role : UserRole) (id : Nat)
    (dto : ReopenTicketDto) (now : Nat) :
    (isNullOrWhiteSpace dto.Comment = true →
      (ReopenTicket db uid role id dto now).1 ≠ ApiResult.Ok ∧
      (ReopenTicket db uid role id dto now).2 = db) ∧
    (∀ db' t, findTicket db id = some t →
      ReopenTicket db uid role id dto now = (ApiResult.Ok, db') →
      isNullOrWhiteSpace dto.Comment = false ∧
      t.Status = TicketStatus.Resolved ∧
      (findTicket db' id).map Ticket.ReopenCount = some (t.ReopenCount + 1) ∧
      statusOf db' id = some TicketStatus.Reopened ∧
      db'.notifications = db.notifications ++
        ((t.AssignedDeveloperId.map (fun devId =>
            { UserId := devId, «Type» := NotificationType.TicketReopened,
              Message := "Ticket reopened: " ++ t.Title, RelatedTicketId := t.Id,
              IsRead := false, CreatedAt := now })).toList ++
          (GetAdminUserIds db).map (fun adminId =>
            { UserId := adminId, «Type» := NotificationType.TicketReopened,
              Message := "Ticket reopened by user: " ++ t.Title, RelatedTicketId := t.Id,
              IsRead := false, CreatedAt := now }))) := by
  constructor
  · intro hws
    unfold ReopenTicket
    split
    · exact ⟨by simp, rfl⟩
    · exact ⟨by simp, rfl⟩
  · intro db' t hf h
    unfold ReopenTicket at h
    simp only [hf] at h
    split at h
    · simp at h
    · split at h
      · simp at h
      · rename_i hws
        split at h
        · simp at h
        · split at h
          · simp at h
          · split at h
            · simp at h
            · rename_i hres
              refine ⟨by simpa using hws, not_not.mp (by simpa using hres), ?_⟩
              simp only [Prod.mk.injEq, true_and] at h
              subst h
              cases hdev : t.AssignedDeveloperId with
              | none =>
                simp only [hdev]
                refine ⟨?_, ?_, ?_⟩
                · simp [findTicket_CreateNotificationsForUsers, findTicket_AddHistory,
                    findTicket_setTicket_cond db id t hf]
                · simp [statusOf, findTicket_CreateNotificationsForUsers, findTicket_AddHistory,
                    findTicket_setTicket_cond db id t hf]
                · simp [CreateNotificationsForUsers, AddHistory, setTicket, GetAdminUserIds]
              | some devId =>
                simp only [hdev]
                refine ⟨?_, ?_, ?_⟩
                · simp [findTicket_CreateNotificationsForUsers, findTicket_CreateNotification,
                    findTicket_AddHistory, findTicket_setTicket_cond db id t hf]
                · simp [statusOf, findTicket_CreateNotificationsForUsers, findTicket_CreateNotification,
                    findTicket_AddHistory, findTicket_setTicket_cond db id t hf]
                · simp [CreateNotificationsForUsers, CreateNotification, AddHistory, setTicket,
                    GetAdminUserIds]

/-- C7 witness: an all-whitespace comment is rejected without touching
the store, and requester 3's accepted reopen of the Resolved sample
ticket bumps `reopenCount` to 1, sets Reopened, and notifies developer 2
and admin 9. -/
theorem reopen_spec_witness :
    ((ReopenTicket dbResolved 3 UserRole.EndUser 1 { Comment := " " } 7).1 ≠ ApiResult.Ok ∧
     (ReopenTicket dbResolved 3 UserRole.EndUser 1 { Comment := " " } 7).2 = dbResolved) ∧
    (isNullOrWhiteSpace "x" = false ∧
     resolvedTicket.Status = TicketStatus.Resolved ∧
     (findTicket (ReopenTicket dbResolved 3 UserRole.EndUser 1 { Comment := "x" } 7).2 1).map
        Ticket.ReopenCount = some (resolvedTicket.ReopenCount + 1) ∧
     statusOf (ReopenTicket dbResolved 3 UserRole.EndUser 1 { Comment := "x" } 7).2 1 =
        some TicketStatus.Reopened ∧
     (ReopenTicket dbResolved 3 UserRole.EndUser 1 { Comment := "x" } 7).2.notifications =
       dbResolved.notifications ++
         ((resolvedTicket.AssignedDeveloperId.map (fun devId =>
             { UserId := devId, «Type» := NotificationType.TicketReopened,
               Message := "Ticket reopened: " ++ resolvedTicket.Title,
               RelatedTicketId := resolvedTicket.Id,
               IsRead := false, CreatedAt := 7 })).toList ++
           (GetAdminUserIds dbResolved).map (fun adminId =>
             { UserId := adminId, «Type» := NotificationType.TicketReopened,
               Message := "Ticket reopened by user: " ++ resolvedTicket.Title,
               RelatedTicketId := resolvedTicket.Id,
               IsRead := false, CreatedAt := 7 }))) :=
  ⟨(reopen_spec dbResolved 3 UserRole.EndUser 1 { Comment := " " } 7).1 (by decide),
   (reopen_spec dbResolved 3 UserRole.EndUser 1 { Comment := "x" } 7).2
     (ReopenTicket dbResolved 3 UserRole.EndUser 1 { Comment := "x" } 7).2
     resolvedTicket rfl (by rfl)⟩

/-! ### C8 -/

/-- The reachability invariant behind "only a Closed ticket may be
archived": every archived ticket in the store is Closed. -/
def ArchivedClosed (db : Db) : Prop :=
  ∀ u ∈ db.tickets, u.IsArchived = true → u.Status = TicketStatus.Closed

instance (db : Db) : Decidable (ArchivedClosed db) := by
  unfold ArchivedClosed
  infer_instance

/-- The invariant only depends on the ticket list. -/
theorem archivedClosed_of_tickets_eq (db db' : Db) (h : db'.tickets = db.tickets)
    (hi : ArchivedClosed db) : ArchivedClosed db' := by
  intro u hu
  exact hi u (h ▸ hu)

/-- Replacing one row preserves the invariant when the new row satisfies
it. -/
theorem archivedClosed_setTicket {db : Db} {t' : Ticket} (hi : ArchivedClosed db)
    (ht : t'.IsArchived = true → t'.Status = TicketStatus.Closed) :
    ArchivedClosed (setTicket db t') := by
  intro u hu harch
  simp only [setTicket, List.mem_map] at hu
  obtain ⟨v, hv, hveq⟩ := hu
  by_cases hid : v.Id = t'.Id
  · rw [if_pos hid] at hveq
    subst hveq
    exact ht harch
  · rw [if_neg hid] at hveq
    subst hveq
    exact hi v hv harch

/-- From Closed no transition validates, for any role. -/
theorem validate_from_closed (ns : TicketStatus) (role : UserRole) :
    (ValidateStatusTransition TicketStatus.Closed ns role).1 = false := by
  simp [ValidateStatusTransition]

/-- `CreateTicket` preserves the invariant (the new ticket is not
archived). -/
theorem create_preserves_archivedClosed (db : Db) (uid : Nat) (role : UserRole)
    (dto : CreateTicketDto) (now : Nat) (hi : ArchivedClosed db) :
    ArchivedClosed (CreateTicket db uid role dto now).2 := by
  unfold CreateTicket
  split
  · exact hi
  · rcases hfp : findProject db dto.ProjectId with _ | p
    · simp only [hfp]
      exact hi
    · simp only [hfp]
      split
      · exact hi
      · rcases hpt : parseTicketType dto.«Type» with _ | ty
        · simp only [hpt]
          exact hi
        · simp only [hpt]
          rcases hpp : parseTicketPriority dto.Priority with _ | pr
          · simp only [hpp]
            exact hi
          · simp only [hpp]
            intro u hu harch
            simp only [CreateNotificationsForUsers, AddHistory, List.mem_append,
              List.mem_singleton] at hu
            rcases hu with hu | hu
            · exact hi u hu harch
            · subst hu
              simp at harch

/-- `AssignTicket` preserves the invariant. -/
theorem assign_preserves_archivedClosed (db : Db) (uid : Nat) (role : UserRole)
    (id : Nat) (dto : AssignTicketDto) (now : Nat) (hi : ArchivedClosed db) :
    ArchivedClosed (AssignTicket db uid role id dto now).2 := by
  unfold AssignTicket
  rcases hft : findTicket db id with _ | t
  · simp only [hft]
    split
    · exact hi
    · exact hi
  · simp only [hft]
    split
    · exact hi
    · split
      · exact hi
      · rename_i hcl
        rcases hfu : findUser db dto.DeveloperId with _ | dev
        · simp only [hfu]
          exact hi
        · simp only [hfu]
          split
          · exact hi
          · refine archivedClosed_of_tickets_eq (setTicket db _) _ rfl
              (archivedClosed_setTicket hi ?_)
            have htc := hi t (List.mem_of_find?_eq_some hft)
            intro harch
            split at harch <;>
              exact absurd (htc (by simpa using harch)) hcl

/-- `UpdateTicketStatus` preserves the invariant. -/
theorem updateStatus_preserves_archivedClosed (db : Db) (uid : Nat) (role : UserRole)
    (id : Nat) (dto : UpdateTicketStatusDto) (now : Nat) (hi : ArchivedClosed db) :
    ArchivedClosed (UpdateTicketStatus db uid role id dto now).2 := by
  unfold UpdateTicketStatus
  split
  · exact hi
  · rcases hft : findTicket db id with _ | t
    · simp only [hft]
      exact hi
    · simp only [hft]
      split
      · exact hi
      · rcases hp : parseTicketStatus dto.Status with _ | ns
        · simp only [hp]
          exact hi
        · simp only [hp]
          split
          · exact hi
          · rename_i hv
            have htc := hi t (List.mem_of_find?_eq_some hft)
            have hnc : ¬ t.Status = TicketStatus.Closed := by
              intro hc
              rw [hc] at hv
              simp [validate_from_closed] at hv
            split <;>
            · refine archivedClosed_of_tickets_eq (setTicket db _) _ rfl
                (archivedClosed_setTicket hi ?_)
              intro hat
              exact absurd (htc (by
                revert hat
                simp [apply_ite Ticket.IsArchived])) hnc

/-- `ReassignTicket` preserves the invariant. -/
theorem reassign_preserves_archivedClosed (db : Db) (uid : Nat) (role : UserRole)
    (id : Nat) (dto : AssignTicketDto) (now : Nat) (hi : ArchivedClosed db) :
    ArchivedClosed (ReassignTicket db uid role id dto now).2 := by
  unfold ReassignTicket
  rcases hft : findTicket db id with _ | t
  · simp only [hft]
    split
    · exact hi
    · exact hi
  · simp only [hft]
    split
    · exact hi
    · split
      · exact hi
      · rename_i hcl
        rcases hfu : findUser db dto.DeveloperId with _ | dev
        · simp only [hfu]
          exact hi
        · simp only [hfu]
          split
          · exact hi
          · refine archivedClosed_of_tickets_eq (setTicket db _) _ rfl
              (archivedClosed_setTicket hi ?_)
            have htc := hi t (List.mem_of_find?_eq_some hft)
            intro harch
            exact absurd (htc (by simpa using harch)) hcl

/-- `CloseTicket` preserves the invariant (the written row is Closed). -/
theorem close_preserves_archivedClosed (db : Db) (uid : Nat) (role : UserRole)
    (id : Nat) (dto : Option CloseTicketDto) (now : Nat) (hi : ArchivedClosed db) :
    ArchivedClosed (CloseTicket db uid role id dto now).2 := by
  unfold CloseTicket
  split
  · exact hi
  · rcases hft : findTicket db id with _ | t
    · simp only [hft]
      exact hi
    · simp only [hft]
      split
      · exact hi
      · split
        · exact hi
        · rcases hsc : dto.bind CloseTicketDto.SatisfactionScore with _ | score
          · simp only [hsc]
            exact archivedClosed_of_tickets_eq (setTicket db _) _ rfl
              (archivedClosed_setTicket hi (fun _ => rfl))
          · simp only [hsc]
            split
            · exact hi
            · exact archivedClosed_of_tickets_eq (setTicket db _) _ rfl
                (archivedClosed_setTicket hi (fun _ => rfl))

/-- `ReopenTicket` preserves the invariant. -/
theorem reopen_preserves_archivedClosed (db : Db) (uid : Nat) (role : UserRole)
    (id : Nat) (dto : ReopenTicketDto) (now : Nat) (hi : ArchivedClosed db) :
    ArchivedClosed (ReopenTicket db uid role id dto now).2 := by
  unfold ReopenTicket
  split
  · exact hi
  · split
    · exact hi
    · rcases hft : findTicket db id with _ | t
      · simp only [hft]
        exact hi
      · simp only [hft]
        split
        · exact hi
        · split
          · exact hi
          · split
            · exact hi
            · rename_i hres
              have htc := hi t (List.mem_of_find?_eq_some hft)
              have hres' : t.Status = TicketStatus.Resolved := not_not.mp (by simpa using hres)
              rcases hdev : t.AssignedDeveloperId with _ | devId <;>
              · simp only [hdev]
                refine archivedClosed_of_tickets_eq (setTicket db _) _ rfl
                  (archivedClosed_setTicket hi ?_)
                intro harch
                rw [htc (by simpa using harch)] at hres'
                cases hres'

/-- `ArchiveTicket` preserves the invariant: a ticket is archived only
while Closed, and the written row keeps status Closed. -/
theorem archive_preserves_archivedClosed (db : Db) (uid : Nat) (role : UserRole)
    (id : Nat) (now : Nat) (hi : ArchivedClosed db) :
    ArchivedClosed (ArchiveTicket db uid role id now).2 := by
  unfold ArchiveTicket
  split
  · exact hi
  · rcases hft : findTicket db id with _ | t
    · simp only [hft]
      exact hi
    · simp only [hft]
      split
      · exact hi
      · split
        · exact hi
        · rename_i hncl _
          refine archivedClosed_of_tickets_eq (setTicket db _) _ rfl
            (archivedClosed_setTicket hi ?_)
          intro _
          exact not_not.mp (by simpa using hncl)

/-- `UnarchiveTicket` preserves the invariant (the written row is not
archived). -/
theorem unarchive_preserves_archivedClosed (db : Db) (uid : Nat) (role : UserRole)
    (id : Nat) (now : Nat) (hi : ArchivedClosed db) :
    ArchivedClosed (UnarchiveTicket db uid role id now).2 := by
  unfold UnarchiveTicket
  split
  · exact hi
  · rcases hft : findTicket db id with _ | t
    · simp only [hft]
      exact hi
    · simp only [hft]
      split
      · exact hi
      · refine archivedClosed_of_tickets_eq (setTicket db _) _ rfl
          (archivedClosed_setTicket hi ?_)
        intro harch
        cases harch

/-- `SendMessage` never touches the ticket list. -/
theorem sendMessage_preserves_archivedClosed (db : Db) (uid : Nat) (role : UserRole)
    (id : Nat) (msg : Option String) (files : List FileUpload) (now : Nat)
    (hi : ArchivedClosed db) :
    ArchivedClosed (SendMessage db uid role id msg files now).2 := by
  unfold SendMessage
  rcases hft : findTicket db id with _ | t
  · simp only [hft]
    exact hi
  · simp only [hft]
    split
    · exact hi
    · split
      · exact hi
      · split
        · exact hi
        · split
          · exact hi
          · split
            · exact hi
            · split
              · exact hi
              · rcases hvf : validateFiles files with _ | m
                · simp only [hvf]
                  split
                  · exact archivedClosed_of_tickets_eq _ _ rfl hi
                  · exact archivedClosed_of_tickets_eq _ _ rfl hi
                · simp only [hvf]
                  exact hi

/-- An accepted `ArchiveTicket` found its ticket Closed and not yet
archived. -/
theorem archive_accepted_from_closed (db : Db) (uid : Nat) (role : UserRole) (id : Nat)
    (now : Nat) (db' : Db) (t : Ticket)
    (hf : findTicket db id = some t)
    (h : ArchiveTicket db uid role id now = (ApiResult.Ok, db')) :
    t.Status = TicketStatus.Closed ∧ t.IsArchived = false := by
  unfold ArchiveTicket at h
  simp only [hf] at h
  split at h
  · simp at h
  · split at h
    · simp at h
    · split at h
      · simp at h
      · rename_i hncl hnar
        exact ⟨not_not.mp (by simpa using hncl), by simpa using hnar⟩

/-- `ArchiveTicket` on an already archived ticket is rejected and the
store is untouched. -/
theorem archive_archived_rejected (db : Db) (uid : Nat) (role : UserRole) (id : Nat)
    (now : Nat) (t : Ticket)
    (hf : findTicket db id = some t) (harch : t.IsArchived = true) :
    (ArchiveTicket db uid role id now).1 ≠ ApiResult.Ok ∧
    (ArchiveTicket db uid role id now).2 = db := by
  unfold ArchiveTicket
  simp only [hf]
  split
  · exact ⟨by simp, rfl⟩
  · split
    · exact ⟨by simp, rfl⟩
    · exact ⟨by simp, rfl⟩

/-- Admin unarchive of an archived ticket is accepted. -/
theorem unarchive_archived_admin_ok (db : Db) (uid : Nat) (id : Nat) (now : Nat)
    (t : Ticket) (hf : findTicket db id = some t) (harch : t.IsArchived = true) :
    (UnarchiveTicket db uid UserRole.Admin id now).1 = ApiResult.Ok := by
  unfold UnarchiveTicket
  simp only [hf]
  rw [if_neg (by simp), if_neg (by simp [harch])]

/-- Non-admin callers cannot reach `UnarchiveTicket` at all. -/
theorem unarchive_nonadmin_forbid (db : Db) (uid : Nat) (role : UserRole) (id : Nat)
    (now : Nat) (hrole : role ≠ UserRole.Admin) :
    UnarchiveTicket db uid role id now = (ApiResult.Forbid, db) := by
  unfold UnarchiveTicket
  rw [if_pos hrole]

/-- C8: (a) a ticket can become archived only while its status is Closed;
(b) every action preserves the invariant that archived tickets are
Closed; (c) on an archived ticket every mutation — status change,
message send, assignment, reassignment, close, reopen, re-archive — is
rejected with the store untouched, whatever the caller's role, and admin
unarchive is the one accepted mutation (non-admins get Forbid). -/
theorem archived_read_only
    (dbV : Db) (uidV : Nat) (roleV : UserRole) (idV : Nat) (nowV : Nat) (dbV' : Db)
    (tV : Ticket) (hfV : findTicket dbV idV = some tV)
    (hV : ArchiveTicket dbV uidV roleV idV nowV = (ApiResult.Ok, dbV'))
    (dbP : Db) (uidP : Nat) (roleP : UserRole) (idP : Nat) (nowP : Nat)
    (dtoCP : CreateTicketDto) (dtoAP : AssignTicketDto) (dtoUP : UpdateTicketStatusDto)
    (dtoLP : Option CloseTicketDto) (dtoRP : ReopenTicketDto)
    (msgP : Option String) (filesP : List FileUpload)
    (hiP : ArchivedClosed dbP)
    (db : Db) (uid : Nat) (role : UserRole) (id : Nat) (now : Nat)
    (dtoA dtoRe : AssignTicketDto) (dtoU : UpdateTicketStatusDto)
    (dtoL : Option CloseTicketDto) (dtoR : ReopenTicketDto)
    (msg : Option String) (files : List FileUpload) (t : Ticket)
    (hi : ArchivedClosed db) (hf : findTicket db id = some t)
    (harch : t.IsArchived = true) :
    (tV.Status = TicketStatus.Closed ∧ tV.IsArchived = false) ∧
    (ArchivedClosed (CreateTicket dbP uidP roleP dtoCP nowP).2 ∧
     ArchivedClosed (AssignTicket dbP uidP roleP idP dtoAP nowP).2 ∧
     ArchivedClosed (UpdateTicketStatus dbP uidP roleP idP dtoUP nowP).2 ∧
     ArchivedClosed (ReassignTicket dbP uidP roleP idP dtoAP nowP).2 ∧
     ArchivedClosed (CloseTicket dbP uidP roleP idP dtoLP nowP).2 ∧
     ArchivedClosed (ReopenTicket dbP uidP roleP idP dtoRP nowP).2 ∧
     ArchivedClosed (ArchiveTicket dbP uidP roleP idP nowP).2 ∧
     ArchivedClosed (UnarchiveTicket dbP uidP roleP idP nowP).2 ∧
     ArchivedClosed (SendMessage dbP uidP roleP idP msgP filesP nowP).2) ∧
    ((UpdateTicketStatus db uid role id dtoU now).1 ≠ ApiResult.Ok ∧
      (UpdateTicketStatus db uid role id dtoU now).2 = db) ∧
    ((SendMessage db uid role id msg files now).1 ≠ ApiResult.Ok ∧
      (SendMessage db uid role id msg files now).2 = db) ∧
    ((AssignTicket db uid role id dtoA now).1 ≠ ApiResult.Ok ∧
      (AssignTicket db uid role id dtoA now).2 = db) ∧
    ((ReassignTicket db uid role id dtoRe now).1 ≠ ApiResult.Ok ∧
      (ReassignTicket db uid role id dtoRe now).2 = db) ∧
    ((CloseTicket db uid role id dtoL now).1 ≠ ApiResult.Ok ∧
      (CloseTicket db uid role id dtoL now).2 = db) ∧
    ((ReopenTicket db uid role id dtoR now).1 ≠ ApiResult.Ok ∧
      (ReopenTicket db uid role id dtoR now).2 = db) ∧
    ((ArchiveTicket db uid role id now).1 ≠ ApiResult.Ok ∧
      (ArchiveTicket db uid role id now).2 = db) ∧
    (role = UserRole.Admin → (UnarchiveTicket db uid role id now).1 = ApiResult.Ok) ∧
    (role ≠ UserRole.Admin →
      UnarchiveTicket db uid role id now = (ApiResult.Forbid, db)) := by
  have hclosed : t.Status = TicketStatus.Closed :=
    hi t (List.mem_of_find?_eq_some hf) harch
  refine ⟨archive_accepted_from_closed dbV uidV roleV idV nowV dbV' tV hfV hV,
    ⟨create_preserves_archivedClosed dbP uidP roleP dtoCP nowP hiP,
     assign_preserves_archivedClosed dbP uidP roleP idP dtoAP nowP hiP,
     updateStatus_preserves_archivedClosed dbP uidP roleP idP dtoUP nowP hiP,
     reassign_preserves_archivedClosed dbP uidP roleP idP dtoAP nowP hiP,
     close_preserves_archivedClosed dbP uidP roleP idP dtoLP nowP hiP,
     reopen_preserves_archivedClosed dbP uidP roleP idP dtoRP nowP hiP,
     archive_preserves_archivedClosed dbP uidP roleP idP nowP hiP,
     unarchive_preserves_archivedClosed dbP uidP roleP idP nowP hiP,
     sendMessage_preserves_archivedClosed dbP uidP roleP idP msgP filesP nowP hiP⟩,
    updateStatus_closed_rejected db uid role id dtoU now t hf hclosed,
    sendMessage_closed_rejected db uid role id msg files now t hf hclosed,
    assign_closed_rejected db uid role id dtoA now t hf hclosed,
    reassign_closed_rejected db uid role id dtoRe now t hf hclosed,
    close_closed_rejected db uid role id dtoL now t hf hclosed,
    reopen_not_resolved_rejected db uid role id dtoR now t hf (by rw [hclosed]; simp),
    archive_archived_rejected db uid role id now t hf harch,
    fun hr => by
      subst hr
      exact unarchive_archived_admin_ok db uid id now t hf harch,
    fun hr => unarchive_nonadmin_forbid db uid role id now hr⟩

/-- C8 witness: admin 9 archives the Closed sample ticket (only possible
from Closed); the invariant is preserved by every action on the archived
store; and on the archived ticket every mutation is rejected unchanged
while admin unarchive succeeds. -/
theorem archived_read_only_witness :
    (closedTicket.Status = TicketStatus.Closed ∧ closedTicket.IsArchived = false) ∧
    (ArchivedClosed (CreateTicket dbArchived 9 UserRole.Admin dtoNewTicket 7).2 ∧
     ArchivedClosed (AssignTicket dbArchived 9 UserRole.Admin 1 { DeveloperId := 2 } 7).2 ∧
     ArchivedClosed (UpdateTicketStatus dbArchived 9 UserRole.Admin 1 { Status := "Open", Comments := none } 7).2 ∧
     ArchivedClosed (ReassignTicket dbArchived 9 UserRole.Admin 1 { DeveloperId := 2 } 7).2 ∧
     ArchivedClosed (CloseTicket dbArchived 9 UserRole.Admin 1 none 7).2 ∧
     ArchivedClosed (ReopenTicket dbArchived 9 UserRole.Admin 1 { Comment := "x" } 7).2 ∧
     ArchivedClosed (ArchiveTicket dbArchived 9 UserRole.Admin 1 7).2 ∧
     ArchivedClosed (UnarchiveTicket dbArchived 9 UserRole.Admin 1 7).2 ∧
     ArchivedClosed (SendMessage dbArchived 9 UserRole.Admin 1 none [] 7).2) ∧
    ((UpdateTicketStatus dbArchived 9 UserRole.Admin 1 { Status := "Open", Comments := none } 7).1 ≠ ApiResult.Ok ∧
      (UpdateTicketStatus dbArchived 9 UserRole.Admin 1 { Status := "Open", Comments := none } 7).2 = dbArchived) ∧
    ((SendMessage dbArchived 9 UserRole.Admin 1 none [] 7).1 ≠ ApiResult.Ok ∧
      (SendMessage dbArchived 9 UserRole.Admin 1 none [] 7).2 = dbArchived) ∧
    ((AssignTicket dbArchived 9 UserRole.Admin 1 { DeveloperId := 2 } 7).1 ≠ ApiResult.Ok ∧
      (AssignTicket dbArchived 9 UserRole.Admin 1 { DeveloperId := 2 } 7).2 = dbArchived) ∧
    ((ReassignTicket dbArchived 9 UserRole.Admin 1 { DeveloperId := 2 } 7).1 ≠ ApiResult.Ok ∧
      (ReassignTicket dbArchived 9 UserRole.Admin 1 { DeveloperId := 2 } 7).2 = dbArchived) ∧
    ((CloseTicket dbArchived 9 UserRole.Admin 1 none 7).1 ≠ ApiResult.Ok ∧
      (CloseTicket dbArchived 9 UserRole.Admin 1 none 7).2 = dbArchived) ∧
    ((ReopenTicket dbArchived 9 UserRole.Admin 1 { Comment := "x" } 7).1 ≠ ApiResult.Ok ∧
      (ReopenTicket dbArchived 9 UserRole.Admin 1 { Comment := "x" } 7).2 = dbArchived) ∧
    ((ArchiveTicket dbArchived 9 UserRole.Admin 1 7).1 ≠ ApiResult.Ok ∧
      (ArchiveTicket dbArchived 9 UserRole.Admin 1 7).2 = dbArchived) ∧
    (UserRole.Admin = UserRole.Admin →
      (UnarchiveTicket dbArchived 9 UserRole.Admin 1 7).1 = ApiResult.Ok) ∧
    (UserRole.Admin ≠ UserRole.Admin →
      UnarchiveTicket dbArchived 9 UserRole.Admin 1 7 = (ApiResult.Forbid, dbArchived)) :=
  archived_read_only
    dbClosed 9 UserRole.Admin 1 7 (ArchiveTicket dbClosed 9 UserRole.Admin 1 7).2
    closedTicket rfl (by rfl)
    dbArchived 9 UserRole.Admin 1 7 dtoNewTicket { DeveloperId := 2 }
    { Status := "Open", Comments := none } none { Comment := "x" } none [] (by decide)
    dbArchived 9 UserRole.Admin 1 7 { DeveloperId := 2 } { DeveloperId := 2 }
    { Status := "Open", Comments := none } none { Comment := "x" } none []
    archivedTicket (by decide) rfl rfl

/-! ### C9 -/

instance : IsTotal TicketHistory (fun a b => a.ChangedAt ≤ b.ChangedAt) :=
  ⟨fun a b => Nat.le_total a.ChangedAt b.ChangedAt⟩

instance : IsTrans TicketHistory (fun a b => a.ChangedAt ≤ b.ChangedAt) :=
  ⟨fun _ _ _ h1 h2 => Nat.le_trans h1 h2⟩

/-- C9: for a caller allowed to view the ticket, `GetTicketHistory`
returns a chronologically ascending (by `ChangedAt`) permutation of
exactly those of the ticket's history rows whose action is in the
caller's role's fixed allow-list; the Admin allow-list contains every
action kind and the Developer allow-list excludes the satisfaction-rating
detail. -/
theorem history_spec (db : Db) (uid : Nat) (role : UserRole) (id : Nat) (t : Ticket)
    (hf : findTicket db id = some t)
    (hdev : role = UserRole.Developer → t.AssignedDeveloperId = some uid)
    (hend : role = UserRole.EndUser → t.CreatedByUserId = uid) :
    ∃ l, GetTicketHistory db uid role id = HistoryResult.Ok l ∧
      List.Perm l (db.histories.filter
        (fun h => h.TicketId == id && (allowedActions role).contains h.Action)) ∧
      List.Pairwise (fun a b => a.ChangedAt ≤ b.ChangedAt) l ∧
      (∀ a : TicketAction, a ∈ allowedActions UserRole.Admin) ∧
      TicketAction.SatisfactionRated ∉ allowedActions UserRole.Developer := by
  refine ⟨List.insertionSort (fun a b => a.ChangedAt ≤ b.ChangedAt)
    (db.histories.filter
      (fun h => h.TicketId == id && (allowedActions role).contains h.Action)),
    ?_, ?_, ?_, ?_, ?_⟩
  · unfold GetTicketHistory
    simp only [hf]
    rw [if_neg (fun h => h.2 (hdev h.1)), if_neg (fun h => h.2 (hend h.1))]
  · exact List.perm_insertionSort _ _
  · exact List.sorted_insertionSort _ _
  · intro a
    cases a <;> simp [allowedActions]
  · simp [allowedActions]

/-- Four audit rows: three for ticket 1 (one of them priority-internal),
one for ticket 2, timestamps out of insertion order. -/
def historyRows : List TicketHistory :=
  [{ TicketId := 1, Action := TicketAction.PriorityChanged, OldValue := some "Low",
     NewValue := some "High", Comments := none, ChangedByUserId := 9, ChangedAt := 5 },
   { TicketId := 1, Action := TicketAction.Created, OldValue := none,
     NewValue := some "Open", Comments := some "Ticket created", ChangedByUserId := 3,
     ChangedAt := 1 },
   { TicketId := 2, Action := TicketAction.Created, OldValue := none,
     NewValue := some "Open", Comments := none, ChangedByUserId := 3, ChangedAt := 2 },
   { TicketId := 1, Action := TicketAction.Assigned, OldValue := none,
     NewValue := some "2", Comments := none, ChangedByUserId := 9, ChangedAt := 3 }]

/-- `dbResolved` with the audit rows above. -/
def dbHist : Db := { dbResolved with histories := historyRows }

/-- C9 witness: requester 3 reads the history of their ticket 1. -/
theorem history_spec_witness :
    ∃ l, GetTicketHistory dbHist 3 UserRole.EndUser 1 = HistoryResult.Ok l ∧
      List.Perm l (dbHist.histories.filter
        (fun h => h.TicketId == 1 && (allowedActions UserRole.EndUser).contains h.Action)) ∧
      List.Pairwise (fun a b => a.ChangedAt ≤ b.ChangedAt) l ∧
      (∀ a : TicketAction, a ∈ allowedActions UserRole.Admin) ∧
      TicketAction.SatisfactionRated ∉ allowedActions UserRole.Developer :=
  history_spec dbHist 3 UserRole.EndUser 1 resolvedTicket rfl
    (fun h => absurd h (by decide)) (fun _ => rfl)

/-! ### C10 -/

/-- C10 counterexample: end user 2 is the assigned developer of ticket 1
but not its creator; their reopen request is rejected by the ownership
check with Forbid — not with the claimed BadRequest of the
developer-guard. -/
theorem reopen_dev_guard_not_badrequest :
    resolvedTicket.AssignedDeveloperId = some 2 ∧
    resolvedTicket.CreatedByUserId ≠ 2 ∧
    ReopenTicket dbResolved 2 UserRole.EndUser 1 { Comment := "x" } 7 =
      (ApiResult.Forbid, dbResolved) := by
  decide

/-- C10 amended: when the earlier guards pass — non-empty comment and,
for an EndUser caller, being the ticket's creator — a caller whose id
equals `AssignedDeveloperId` and whose role is not Admin (EndUser is the
only such role the endpoint admits) is rejected with BadRequest
"Developer cannot reopen their own assigned ticket", the store untouched
and the guard firing before the Resolved-status check; an Admin who is
the assigned developer is not blocked and reopens a Resolved ticket
successfully. -/
theorem reopen_dev_guard (db : Db) (uid : Nat) (id : Nat) (dto : ReopenTicketDto)
    (now : Nat) (t : Ticket)
    (hws : isNullOrWhiteSpace dto.Comment = false)
    (hf : findTicket db id = some t)
    (hdev : t.AssignedDeveloperId = some uid) :
    (t.CreatedByUserId = uid →
      ReopenTicket db uid UserRole.EndUser id dto now =
        (ApiResult.BadRequest "Developer cannot reopen their own assigned ticket", db)) ∧
    (t.Status = TicketStatus.Resolved →
      (ReopenTicket db uid UserRole.Admin id dto now).1 = ApiResult.Ok) := by
  constructor
  · intro hcr
    unfold ReopenTicket
    rw [if_neg (by simp), if_neg (by simp [hws])]
    simp only [hf]
    rw [if_neg (fun h => h.2 hcr), if_pos ⟨hdev, by decide⟩]
  · intro hres
    unfold ReopenTicket
    rw [if_neg (by simp), if_neg (by simp [hws])]
    simp only [hf]
    rw [if_neg (by simp), if_neg (by simp), if_neg (by simp [hres])]

/-- A Resolved ticket whose creator is also its assigned developer
(user 2). -/
def devOwnTicket : Ticket := { resolvedTicket with CreatedByUserId := 2 }

/-- `dbClosed` with `devOwnTicket` instead. -/
def dbDevOwn : Db := { dbClosed with tickets := [devOwnTicket] }

/-- C10 witness: user 2 created ticket 1 and is its assigned developer;
as EndUser the guard rejects their reopen with the developer-guard
BadRequest, while as Admin the reopen of the Resolved ticket succeeds. -/
theorem reopen_dev_guard_witness :
    ReopenTicket dbDevOwn 2 UserRole.EndUser 1 { Comment := "x" } 7 =
      (ApiResult.BadRequest "Developer cannot reopen their own assigned ticket", dbDevOwn) ∧
    (ReopenTicket dbDevOwn 2 UserRole.Admin 1 { Comment := "x" } 7).1 = ApiResult.Ok :=
  ⟨(reopen_dev_guard dbDevOwn 2 1 { Comment := "x" } 7 devOwnTicket (by decide) rfl rfl).1 rfl,
   (reopen_dev_guard dbDevOwn 2 1 { Comment := "x" } 7 devOwnTicket (by decide) rfl rfl).2 rfl⟩

end PMS
